import Mathlib

/-!
Shallow embedding of the DRUMS-only production scheduling engine of this
repository (src/backend/production_scheduling.py together with the
approve-schedule endpoint of src/backend/server.py).

Modelling conventions:
* Mongo collections become Lean lists of structure rows; `find_one` becomes
  `List.find?` (first match in insertion order), `insert_one` appends at the
  end of the list, `delete_many` is `List.filter` with the negated predicate.
* Opaque string identifiers (uuid4) become naturals drawn from a `next_id`
  counter carried in the state, so identifier churn across runs is visible.
* ISO date strings (compared lexicographically by Mongo and by Python)
  become integers (day numbers); the order is the same.
* Python floats become rationals.
* Python truthiness on numeric config fields (`if spec.get('net_weight_kg')`)
  is modelled by nonzero tests, since `0.0` and `None` are both falsy.
* The free-form `blocking_details` payload and the human-readable `name`
  snapshot inside it are not modelled; the status, blocking reason and all
  inserted rows are.  Job orders lacking a `delivery_date` (the source
  substitutes the current timestamp) are modelled with the date required.
-/

set_option autoImplicit false

namespace ERP

attribute [local semireducible] Rat.add Rat.sub Rat.mul Rat.inv

/-- Daily drum capacity, `self.daily_capacity = 600` in `ProductionScheduler`. -/
def daily_capacity : Nat := 600

/-- A row of the `products` collection (only the fields the scheduler reads). -/
structure ProductRow where
  id : Nat
  ptype : String
  density_kg_per_l : Option ℚ
  deriving DecidableEq

/-- A row of the `packaging` collection. -/
structure PackagingRow where
  id : Nat
  capacity_liters : ℚ
  net_weight_kg_default : Option ℚ
  deriving DecidableEq

/-- A row of `product_packaging_specs`. -/
structure ProductPackagingSpecRow where
  product_id : Nat
  packaging_id : Nat
  net_weight_kg : ℚ
  deriving DecidableEq

/-- A row of `product_boms`. -/
structure ProductBOMRow where
  id : Nat
  product_id : Nat
  version : Nat
  is_active : Bool
  deriving DecidableEq

/-- A row of `product_bom_items`. -/
structure ProductBOMItemRow where
  bom_id : Nat
  material_item_id : Nat
  qty_kg_per_kg_finished : ℚ
  deriving DecidableEq

/-- A row of `packaging_boms`. -/
structure PackagingBOMRow where
  id : Nat
  packaging_id : Nat
  is_active : Bool
  deriving DecidableEq

/-- A row of `packaging_bom_items`. -/
structure PackagingBOMItemRow where
  packaging_bom_id : Nat
  pack_item_id : Nat
  qty_per_drum : ℚ
  deriving DecidableEq

/-- A row of `inventory_items` (only `uom` is read by the generator). -/
structure InventoryItemRow where
  id : Nat
  uom : String
  deriving DecidableEq

/-- A row of `inventory_balances`. -/
structure InventoryBalanceRow where
  item_id : Nat
  on_hand : ℚ
  deriving DecidableEq

/-- A row of `inventory_reservations`. -/
structure InventoryReservationRow where
  id : Nat
  item_id : Nat
  ref_type : String
  ref_id : Nat
  qty : ℚ
  deriving DecidableEq

/-- A row of `purchase_orders` (only `status` is read). -/
structure PurchaseOrderRow where
  id : Nat
  status : String
  deriving DecidableEq

/-- A row of `purchase_order_lines`. -/
structure PurchaseOrderLineRow where
  po_id : Nat
  item_id : Nat
  qty : ℚ
  received_qty : ℚ
  promised_delivery_date : Option Int
  deriving DecidableEq

/-- A joined open job order, as consumed by `regenerate_schedule`'s pipeline. -/
structure JobOrderRow where
  id : Nat
  product_id : Nat
  packaging_id : Nat
  spec_id : Option Nat
  bom_version : Option Nat
  quantity : Nat
  delivery_date : Int
  status : String
  packaging_type : String
  deriving DecidableEq

/-- The collections the regeneration run only reads (reference and inventory
data).  `inventory_reservations` is written by the approve step alone. -/
structure Refs where
  products : List ProductRow
  packaging : List PackagingRow
  product_packaging_specs : List ProductPackagingSpecRow
  product_boms : List ProductBOMRow
  product_bom_items : List ProductBOMItemRow
  packaging_boms : List PackagingBOMRow
  packaging_bom_items : List PackagingBOMItemRow
  inventory_items : List InventoryItemRow
  inventory_balances : List InventoryBalanceRow
  inventory_reservations : List InventoryReservationRow
  purchase_orders : List PurchaseOrderRow
  purchase_order_lines : List PurchaseOrderLineRow
  job_orders : List JobOrderRow
  deriving DecidableEq

/-- Density leg of the resolver: `packaging.capacity_liters * product.density_kg_per_l`
when both are truthy, as in the last branch of `get_net_weight_kg`. -/
def net_weight_density (r : Refs) (product_id : Nat) (pk : PackagingRow) : Option ℚ :=
  match r.products.find? fun p => p.id == product_id with
  | some p =>
    match p.density_kg_per_l with
    | some dq =>
      if pk.capacity_liters ≠ 0 ∧ dq ≠ 0 then some (pk.capacity_liters * dq) else none
    | none => none
  | none => none

/-- Fallback of the resolver after the product-packaging spec fails:
packaging default net weight, then the density computation. -/
def net_weight_fallback (r : Refs) (product_id packaging_id : Nat) : Option ℚ :=
  match r.packaging.find? fun pk => pk.id == packaging_id with
  | some pk =>
    match pk.net_weight_kg_default with
    | some w => if w ≠ 0 then some w else net_weight_density r product_id pk
    | none => net_weight_density r product_id pk
  | none => none

/-- Conversion Resolver, `ProductionScheduler.get_net_weight_kg`.
Tier 1 is the product-packaging spec, tier 2 the packaging default, tier 3
capacity times density; a tier whose value is absent or zero (Python falsy)
does not resolve, and no numeric default is substituted. -/
def get_net_weight_kg (r : Refs) (product_id packaging_id : Nat) : Option ℚ :=
  match r.product_packaging_specs.find? (fun sp =>
      sp.product_id == product_id && sp.packaging_id == packaging_id) with
  | some sp =>
    if sp.net_weight_kg ≠ 0 then some sp.net_weight_kg
    else net_weight_fallback r product_id packaging_id
  | none => net_weight_fallback r product_id packaging_id

/-- Resolution tier 1, written from the specification's words: the explicit
`ProductPackagingSpec.net_weight` configured for the (product, packaging)
pair, when one is configured (present and nonzero). -/
def spec_tier1 (r : Refs) (product_id packaging_id : Nat) : Option ℚ :=
  match r.product_packaging_specs.find? (fun sp =>
      sp.product_id == product_id && sp.packaging_id == packaging_id) with
  | some sp => if sp.net_weight_kg ≠ 0 then some sp.net_weight_kg else none
  | none => none

/-- Resolution tier 2, written from the specification's words: the
packaging's configured default net weight. -/
def spec_tier2 (r : Refs) (packaging_id : Nat) : Option ℚ :=
  match r.packaging.find? (fun pk => pk.id == packaging_id) with
  | some pk =>
    match pk.net_weight_kg_default with
    | some w => if w ≠ 0 then some w else none
    | none => none
  | none => none

/-- Resolution tier 3, written from the specification's words:
`capacity_liters × density_kg_per_l` when both are present. -/
def spec_tier3 (r : Refs) (product_id packaging_id : Nat) : Option ℚ :=
  match r.packaging.find? (fun pk => pk.id == packaging_id) with
  | some pk =>
    match r.products.find? (fun p => p.id == product_id) with
    | some p =>
      match p.density_kg_per_l with
      | some dq =>
        if pk.capacity_liters ≠ 0 ∧ dq ≠ 0 then some (pk.capacity_liters * dq) else none
      | none => none
    | none => none
  | none => none

/-- The resolver the specification describes: the three tiers in order,
first match wins, no default when all three fail. -/
def spec_net_weight (r : Refs) (product_id packaging_id : Nat) : Option ℚ :=
  (spec_tier1 r product_id packaging_id).orElse fun _ =>
    (spec_tier2 r packaging_id).orElse fun _ =>
      spec_tier3 r product_id packaging_id

/-- Material Availability snapshot, `ProductionScheduler.get_available_quantity`:
on-hand (0 when no balance row) minus the sum of every reservation of the
item, plus the positive remaining quantities of purchase-order lines promised
on or before the date whose order is SENT or PARTIAL. -/
def get_available_quantity (r : Refs) (item_id : Nat) (schedule_date : Int) : ℚ :=
  let on_hand :=
    match r.inventory_balances.find? (fun b => b.item_id == item_id) with
    | some b => b.on_hand
    | none => 0
  let reserved := ((r.inventory_reservations.filter
      (fun v => v.item_id == item_id)).map (fun v => v.qty)).sum
  let inbound_lines := r.purchase_order_lines.filter fun l =>
    l.item_id == item_id &&
    (match l.promised_delivery_date with
      | some d => decide (d ≤ schedule_date)
      | none => false) &&
    r.purchase_orders.any fun po =>
      po.id == l.po_id && (po.status == "SENT" || po.status == "PARTIAL")
  let inbound := (((inbound_lines.map fun l => l.qty - l.received_qty).filter
      fun q => decide (0 < q)).sum)
  on_hand - reserved + inbound

/-- Availability as the specification words it: on-hand (0 when no balance
record), minus the unconditional reservation sum, plus the date- and
status-gated inbound sum, where the inbound quantity of a purchase-order line
is the part of its quantity not yet received (never negative). -/
def spec_availability (r : Refs) (item_id : Nat) (as_of : Int) : ℚ :=
  (match r.inventory_balances.find? (fun b => b.item_id == item_id) with
    | some b => b.on_hand
    | none => 0)
  - ((r.inventory_reservations.filter (fun v => v.item_id == item_id)).map
      (fun v => v.qty)).sum
  + ((r.purchase_order_lines.filter fun l =>
        l.item_id == item_id &&
        (match l.promised_delivery_date with
          | some d => decide (d ≤ as_of)
          | none => false) &&
        r.purchase_orders.any fun po =>
          po.id == l.po_id && (po.status == "SENT" || po.status == "PARTIAL")).map
      fun l => max 0 (l.qty - l.received_qty)).sum

/-! ## Demand consolidation (`ConsolidationKey`, `CampaignData`, step 2) -/

/-- The consolidation key of `ConsolidationKey.__init__`: (product, packaging,
spec-or-none, resolved formulation). -/
structure ConsolidationKey where
  product_id : Nat
  packaging_id : Nat
  spec_id : Option Nat
  bom_id : Nat
  deriving DecidableEq

/-- `CampaignData`: the in-memory aggregate one consolidation key accumulates. -/
structure CampaignData where
  product_id : Nat
  packaging_id : Nat
  spec_id : Option Nat
  bom_id : Nat
  bom_version : Nat
  total_drums : Nat
  earliest_due_date : Option Int
  job_links : List (Nat × Nat)
  deriving DecidableEq

/-- Formulation resolution per job line: the pinned version when the line
carries a truthy `bom_version`, otherwise the product's active formulation
(`find_one`, first match). -/
def resolve_bom (r : Refs) (j : JobOrderRow) : Option ProductBOMRow :=
  match j.bom_version with
  | some v =>
    if v ≠ 0 then
      r.product_boms.find? fun b => b.product_id == j.product_id && b.version == v
    else
      r.product_boms.find? fun b => b.product_id == j.product_id && b.is_active
  | none => r.product_boms.find? fun b => b.product_id == j.product_id && b.is_active

/-- `CampaignData.add_job_item`: accumulate drums, keep the minimum due date,
record the traceability link. -/
def add_job_item (cd : CampaignData) (j : JobOrderRow) : CampaignData :=
  { cd with
    total_drums := cd.total_drums + j.quantity
    earliest_due_date :=
      some (match cd.earliest_due_date with
        | none => j.delivery_date
        | some d => min d j.delivery_date)
    job_links := cd.job_links ++ [(j.id, j.quantity)] }

/-- A fresh, empty aggregate for one consolidation key. -/
def new_campaign_data (j : JobOrderRow) (bom : ProductBOMRow) : CampaignData :=
  ⟨j.product_id, j.packaging_id, j.spec_id, bom.id, bom.version, 0, none, []⟩

/-- One consolidation step: resolve the line's formulation (skipping the line
when none resolves), then fold the line into the keyed aggregate, preserving
first-seen insertion order as the Python dict does. -/
def consolidate_step (r : Refs) (acc : List (ConsolidationKey × CampaignData))
    (j : JobOrderRow) : List (ConsolidationKey × CampaignData) :=
  match resolve_bom r j with
  | none => acc
  | some bom =>
    let key : ConsolidationKey := ⟨j.product_id, j.packaging_id, j.spec_id, bom.id⟩
    if acc.any fun kv => decide (kv.1 = key) then
      acc.map fun kv => if kv.1 = key then (key, add_job_item kv.2 j) else kv
    else
      acc ++ [(key, add_job_item (new_campaign_data j bom) j)]

/-- Demand Consolidator over the filtered open job lines. -/
def consolidate (r : Refs) (items : List JobOrderRow) :
    List (ConsolidationKey × CampaignData) :=
  items.foldl (consolidate_step r) []

/-- Sort comparator of step 3: ascending earliest due date, a missing due
date sorting last (`earliest_due_date or datetime.max`). -/
def due_le (a b : CampaignData) : Bool :=
  match a.earliest_due_date, b.earliest_due_date with
  | _, none => true
  | none, some _ => false
  | some x, some y => decide (x ≤ y)

universe u

/-- Stable insertion into a sorted list: keeps earlier-seen equal keys first. -/
def ins_sorted {α : Type u} (le : α → α → Bool) (x : α) : List α → List α
  | [] => [x]
  | y :: ys => if le y x then y :: ins_sorted le x ys else x :: y :: ys

/-- The stable sort Python's `sorted` performs. -/
def stable_sort {α : Type u} (le : α → α → Bool) (xs : List α) : List α :=
  xs.foldl (fun acc x => ins_sorted le x acc) []

/-! ## Capacity Allocator (step 4) -/

/-! ## Capacity Allocator (step 4) -/

/-- Drums already allocated to one day
(`sum(a['drums'] for a in daily_allocations[day_offset])`). -/
def day_sum (d : List (CampaignData × Nat)) : Nat := (d.map fun e => e.2).sum

/-- Walk of one campaign over the remaining days (the inner `while` loop):
allocate `min(remaining, dailyCapacity - dayTotal)` whenever the day still
has room, then continue with the rest.  An exhausted campaign leaves the
remaining days untouched; a remainder surviving past the last day is dropped. -/
def alloc_campaign (cap : Nat) (cd : CampaignData) :
    Nat → List (List (CampaignData × Nat)) → List (List (CampaignData × Nat))
  | _, [] => []
  | rem, d :: ds =>
    let take := min rem (cap - day_sum d)
    (if take = 0 then d else d ++ [(cd, take)]) ::
      alloc_campaign cap cd (rem - take) ds

/-- Step 4 in full: campaigns in priority order over the 7 empty day slots. -/
def alloc_all (cap : Nat) (cds : List CampaignData) :
    List (List (CampaignData × Nat)) :=
  cds.foldl (fun days cd => alloc_campaign cap cd cd.total_drums days)
    (List.replicate 7 [])

/-- The per-day quantities one campaign walk takes, given the usage profile. -/
def campaign_takes (cap : Nat) : Nat → List Nat → List Nat
  | _, [] => []
  | rem, u :: us =>
    let t := min rem (cap - u)
    t :: campaign_takes cap (rem - t) us

/-- Unused capacity across a day profile. -/
def free_capacity (cap : Nat) (ds : List (List (CampaignData × Nat))) : Nat :=
  ((ds.map fun d => cap - day_sum d).sum)

/-- Total drums a given campaign holds across all day slots. -/
def allocated_to (cd : CampaignData) (ds : List (List (CampaignData × Nat))) : Nat :=
  ((ds.map fun d => ((d.filter fun e => decide (e.1 = cd)).map fun e => e.2).sum).sum)

/-! ## Persisted scheduling rows and the mutable state -/

/-- A row of `production_campaigns`. -/
structure ProductionCampaignRow where
  id : Nat
  product_id : Nat
  packaging_id : Nat
  spec_id : Option Nat
  bom_id : Nat
  bom_version : Nat
  total_drums : Nat
  earliest_due_date : Option Int
  status : String
  deriving DecidableEq

/-- A row of `production_campaign_job_links`. -/
structure CampaignJobLinkRow where
  id : Nat
  campaign_id : Nat
  job_order_item_id : Nat
  drums_allocated : Nat
  deriving DecidableEq

/-- A row of `production_schedule_days`. -/
structure ScheduleDayRow where
  id : Nat
  week_start : Int
  schedule_date : Int
  campaign_id : Nat
  planned_drums : Nat
  status : String
  blocking_reason : String
  deriving DecidableEq

/-- A row of `production_day_requirements`. -/
structure DayRequirementRow where
  id : Nat
  schedule_day_id : Nat
  item_id : Nat
  item_type : String
  required_qty : ℚ
  available_qty_snapshot : ℚ
  shortage_qty : ℚ
  deriving DecidableEq

/-- A row of `procurement_requisitions`. -/
structure RequisitionRow where
  id : Nat
  status : String
  notes : String
  deriving DecidableEq

/-- A row of `procurement_requisition_lines`. -/
structure RequisitionLineRow where
  id : Nat
  pr_id : Nat
  item_id : Nat
  item_type : String
  qty : ℚ
  uom : String
  required_by : Int
  linked_campaign_id : Nat
  linked_schedule_day_id : Nat
  reason : String
  deriving DecidableEq

/-- The whole persistence store as the scheduler sees it.  `refs` holds the
collections a regeneration run never writes; the rest are the collections it
rebuilds, plus the uuid counter. -/
structure State where
  refs : Refs
  production_campaigns : List ProductionCampaignRow
  production_campaign_job_links : List CampaignJobLinkRow
  production_schedule_days : List ScheduleDayRow
  production_day_requirements : List DayRequirementRow
  procurement_requisitions : List RequisitionRow
  procurement_requisition_lines : List RequisitionLineRow
  next_id : Nat
  deriving DecidableEq

/-! ## Material Availability Checker (`_check_material_availability`) -/

/-! ## Material Availability Checker (`_check_material_availability`) -/

/-- One requirement record, before it is given an id and a day link. -/
structure ReqSpec where
  item_id : Nat
  item_type : String
  required_qty : ℚ
  available_qty_snapshot : ℚ
  shortage_qty : ℚ
  deriving DecidableEq

/-- One entry of the in-memory `shortages` list (the `required`/`available`
copies that only feed `blocking_details` are not modelled). -/
structure ShortageRec where
  item_id : Nat
  item_type : String
  shortage : ℚ
  deriving DecidableEq

/-- Outcome of the availability check for one schedule day. -/
structure DayEval where
  status : String
  blocking_reason : String
  reqs : List ReqSpec
  shortages : List ShortageRec
  deriving DecidableEq

/-- RAW tier: `required_kg = finished_kg * qty_kg_per_kg_finished`, snapshot
availability, shortage clamped at zero. -/
def eval_raw_item (r : Refs) (finished_kg : ℚ) (sched_date : Int)
    (bi : ProductBOMItemRow) : ReqSpec :=
  let required_kg := finished_kg * bi.qty_kg_per_kg_finished
  let available := get_available_quantity r bi.material_item_id sched_date
  ⟨bi.material_item_id, "RAW", required_kg, available, max 0 (required_kg - available)⟩

/-- PACK tier: `required_qty = planned_drums * qty_per_drum`. -/
def eval_pack_item (r : Refs) (planned_drums : Nat) (sched_date : Int)
    (pbi : PackagingBOMItemRow) : ReqSpec :=
  let required_qty := (planned_drums : ℚ) * pbi.qty_per_drum
  let available := get_available_quantity r pbi.pack_item_id sched_date
  ⟨pbi.pack_item_id, "PACK", required_qty, available, max 0 (required_qty - available)⟩

/-- The shortage entries collected while scanning: the requirement records
with a positive shortage, in emission order. -/
def shortages_of (reqs : List ReqSpec) : List ShortageRec :=
  (reqs.filter fun q => decide (0 < q.shortage_qty)).map fun q =>
    ⟨q.item_id, q.item_type, q.shortage_qty⟩

/-- Blocking classification: both tiers short, only RAW, or only PACK. -/
def classify_reason (shorts : List ShortageRec) : String :=
  let raw := shorts.filter fun sh => sh.item_type == "RAW"
  let pack := shorts.filter fun sh => sh.item_type == "PACK"
  if !raw.isEmpty && !pack.isEmpty then "RAW_PACK_SHORTAGE"
  else if !raw.isEmpty then "RAW_SHORTAGE"
  else "PACK_SHORTAGE"

/-- Final day verdict: READY with no shortages, otherwise BLOCKED with the
shortage classification. -/
def classify_day (reqs : List ReqSpec) (shorts : List ShortageRec) : DayEval :=
  if shorts.isEmpty then ⟨"READY", "NONE", reqs, []⟩
  else ⟨"BLOCKED", classify_reason shorts, reqs, shorts⟩

/-- Pure part of `_check_material_availability` for one schedule day: net
weight (truthy) or `CONVERSION_MISSING`; formulation items or `BOM_MISSING`;
then one requirement record per RAW and PACK item and the final
classification.  The mutating caller inserts `reqs` and, on a blocking
classification, invokes the requisition generator with `shortages`. -/
def eval_day (r : Refs) (product_id packaging_id bom_id planned_drums : Nat)
    (sched_date : Int) : DayEval :=
  match get_net_weight_kg r product_id packaging_id with
  | none => ⟨"BLOCKED", "CONVERSION_MISSING", [], []⟩
  | some net_weight_kg =>
    if net_weight_kg = 0 then ⟨"BLOCKED", "CONVERSION_MISSING", [], []⟩
    else
      let finished_kg := (planned_drums : ℚ) * net_weight_kg
      let bom_items := r.product_bom_items.filter fun bi => bi.bom_id == bom_id
      if bom_items.isEmpty then ⟨"BLOCKED", "BOM_MISSING", [], []⟩
      else
        let raw_reqs := bom_items.map (eval_raw_item r finished_kg sched_date)
        let pack_reqs :=
          match r.packaging_boms.find? (fun pb =>
              pb.packaging_id == packaging_id && pb.is_active) with
          | some pb =>
            (r.packaging_bom_items.filter fun pbi =>
                pbi.packaging_bom_id == pb.id).map
              (eval_pack_item r planned_drums sched_date)
          | none => []
        let reqs := raw_reqs ++ pack_reqs
        classify_day reqs (shortages_of reqs)

/-! ## Procurement Requisition Generator (`_create_procurement_requisitions`) -/

/-! ## Procurement Requisition Generator (`_create_procurement_requisitions`) -/

/-- The dedup key of `_create_procurement_requisitions`:
(requisition, item, required-by = day's date, linked schedule day). -/
def pr_line_key (pr_id : Nat) (day : ScheduleDayRow) (sh : ShortageRec)
    (ln : RequisitionLineRow) : Bool :=
  ln.pr_id == pr_id && ln.item_id == sh.item_id &&
  ln.required_by == day.schedule_date &&
  ln.linked_schedule_day_id == day.id

/-- The requisition line created for one shortage (reason summarizes the
triggering day). -/
def mk_pr_line (id pr_id : Nat) (day : ScheduleDayRow) (sh : ShortageRec)
    (uom : String) : RequisitionLineRow :=
  ⟨id, pr_id, sh.item_id, sh.item_type, sh.shortage, uom,
    day.schedule_date, day.campaign_id, day.id,
    sh.item_type ++ " shortage for " ++ toString day.schedule_date⟩

/-- The unit of measure copied onto a new line: the item's, or KG. -/
def pr_uom (sh : ShortageRec) (s : State) : String :=
  match s.refs.inventory_items.find? fun it => it.id == sh.item_id with
  | some it => it.uom
  | none => "KG"

/-- Append the new requisition line for one shortage. -/
def add_pr_line (pr_id : Nat) (day : ScheduleDayRow) (sh : ShortageRec)
    (s : State) : State :=
  { s with
    procurement_requisition_lines := s.procurement_requisition_lines ++
      [mk_pr_line s.next_id pr_id day sh (pr_uom sh s)]
    next_id := s.next_id + 1 }

/-- Insert one requisition line per shortage whose
(requisition, item, required-by, schedule-day) key has no line yet.
A key with an existing line is skipped entirely. -/
def create_pr_lines (pr_id : Nat) (day : ScheduleDayRow) :
    List ShortageRec → State → State
  | [], s => s
  | sh :: rest, s =>
    match s.procurement_requisition_lines.find? (pr_line_key pr_id day sh) with
    | some _ => create_pr_lines pr_id day rest s
    | none => create_pr_lines pr_id day rest (add_pr_line pr_id day sh s)

/-- Create the auto-generated DRAFT requisition header. -/
def add_draft_pr (day : ScheduleDayRow) (s : State) : State :=
  { s with
    procurement_requisitions := s.procurement_requisitions ++
      [⟨s.next_id, "DRAFT",
        "Auto-generated for week " ++ toString day.week_start⟩]
    next_id := s.next_id + 1 }

/-- Find the current DRAFT requisition header (any week) or create one, then
append the missing lines. -/
def create_procurement_requisitions (day : ScheduleDayRow)
    (shorts : List ShortageRec) (s : State) : State :=
  match s.procurement_requisitions.find? fun pr => pr.status == "DRAFT" with
  | some pr => create_pr_lines pr.id day shorts s
  | none => create_pr_lines s.next_id day shorts (add_draft_pr day s)

/-! ## Schedule Regeneration Orchestrator (`regenerate_schedule`) -/

/-! ## Schedule Regeneration Orchestrator (`regenerate_schedule`) -/

/-- Insert the requirement records of one day, in scan order. -/
def insert_requirements (day_id : Nat) : List ReqSpec → State → State
  | [], s => s
  | q :: qs, s =>
    insert_requirements day_id qs
      { s with
        production_day_requirements := s.production_day_requirements ++
          [⟨s.next_id, day_id, q.item_id, q.item_type, q.required_qty,
            q.available_qty_snapshot, q.shortage_qty⟩]
        next_id := s.next_id + 1 }

/-- Campaign row persisted in step 5 (status is the model default DRAFT). -/
def mk_campaign_row (id : Nat) (cd : CampaignData) : ProductionCampaignRow :=
  ⟨id, cd.product_id, cd.packaging_id, cd.spec_id, cd.bom_id, cd.bom_version,
    cd.total_drums, cd.earliest_due_date, "DRAFT"⟩

/-- Insert the traceability links of one campaign. -/
def insert_links (campaign_id : Nat) : List (Nat × Nat) → State → State
  | [], s => s
  | (job_id, drums) :: rest, s =>
    insert_links campaign_id rest
      { s with
        production_campaign_job_links := s.production_campaign_job_links ++
          [⟨s.next_id, campaign_id, job_id, drums⟩]
        next_id := s.next_id + 1 }

/-- Step 5: one campaign row (plus its job links) per consolidated campaign. -/
def insert_campaigns : List CampaignData → State → State
  | [], s => s
  | cd :: rest, s =>
    let row := mk_campaign_row s.next_id cd
    insert_campaigns rest
      (insert_links row.id cd.job_links
        { s with
          production_campaigns := s.production_campaigns ++ [row]
          next_id := s.next_id + 1 })

/-- Handling of one allocation whose campaign row was found: construct the
day (fresh id, DRAFT replaced by the evaluated status), insert the
requirement records, possibly the requisition lines, then the day row. -/
def day_entry_state (week_start sched_date : Int) (drums : Nat)
    (c : ProductionCampaignRow) (s : State) : ScheduleDayRow × State :=
  let day_id := s.next_id
  let ev := eval_day s.refs c.product_id c.packaging_id c.bom_id drums sched_date
  let day : ScheduleDayRow :=
    ⟨day_id, week_start, sched_date, c.id, drums, ev.status, ev.blocking_reason⟩
  let s1 := insert_requirements day_id ev.reqs { s with next_id := s.next_id + 1 }
  let s2 := if ev.shortages.isEmpty then s1
    else create_procurement_requisitions day ev.shortages s1
  (day, { s2 with
    production_schedule_days := s2.production_schedule_days ++ [day] })

/-- Step 6 for one date: each allocation looks its campaign row up again by
(product, packaging, formulation) — skipping the allocation when none is
found — and persists the evaluated day. -/
def create_day_rows (week_start sched_date : Int) :
    List (CampaignData × Nat) → State → List ScheduleDayRow × State
  | [], s => ([], s)
  | (cd, drums) :: rest, s =>
    match s.production_campaigns.find? (fun c =>
        c.product_id == cd.product_id && c.packaging_id == cd.packaging_id &&
        c.bom_id == cd.bom_id) with
    | none => create_day_rows week_start sched_date rest s
    | some c =>
      let r1 := day_entry_state week_start sched_date drums c s
      let res := create_day_rows week_start sched_date rest r1.2
      (r1.1 :: res.1, res.2)

/-- Step 6 over the seven day offsets of the week. -/
def create_all_days (week_start : Int) :
    Nat → List (List (CampaignData × Nat)) → State → List ScheduleDayRow × State
  | _, [], s => ([], s)
  | off, es :: rest, s =>
    let r1 := create_day_rows week_start (week_start + (off : Int)) es s
    let r2 := create_all_days week_start (off + 1) rest r1.2
    (r1.1 ++ r2.1, r2.2)

/-- The open-demand filter of step 1: status pending or in_production, DRUM
packaging, joined product MANUFACTURED, joined packaging present. -/
def job_matches (r : Refs) (j : JobOrderRow) : Bool :=
  (j.status == "pending" || j.status == "in_production") &&
  j.packaging_type == "DRUM" &&
  (r.products.any fun p => p.id == j.product_id && p.ptype == "MANUFACTURED") &&
  (r.packaging.any fun pk => pk.id == j.packaging_id)

/-- The summary dictionary `regenerate_schedule` returns. -/
structure RegenSummary where
  success : Bool
  message : String
  campaigns_created : Nat
  schedule_days_created : Nat
  week_start : Option Int
  deriving DecidableEq

/-- `ProductionScheduler.regenerate_schedule`, instrumented to also return
the list of schedule-day rows the run inserted (its middle component); the
state transition and summary are exactly the source's.  With no matching
open job orders it returns before the deletion step; otherwise it deletes
the week's DRAFT schedule days, consolidates, allocates, persists campaigns
and then the evaluated schedule days. -/
def regenerate_full (week_start : Int) (s : State) :
    RegenSummary × List ScheduleDayRow × State :=
  let job_items := s.refs.job_orders.filter (job_matches s.refs)
  if job_items.isEmpty then
    (⟨true, "No open drum job orders found", 0, 0, none⟩, [], s)
  else
    let campaigns_list :=
      stable_sort due_le ((consolidate s.refs job_items).map fun kv => kv.2)
    let s1 := { s with
      production_schedule_days := s.production_schedule_days.filter fun d =>
        !(d.week_start == week_start && d.status == "DRAFT") }
    let dal := alloc_all daily_capacity campaigns_list
    let s2 := insert_campaigns campaigns_list s1
    let res := create_all_days week_start 0 dal s2
    (⟨true, "Schedule regenerated for week starting " ++ toString week_start,
      campaigns_list.length, res.1.length, some week_start⟩, res.1, res.2)

/-- The entry point as the caller sees it: summary and new state. -/
def regenerate_schedule (week_start : Int) (s : State) : RegenSummary × State :=
  let res := regenerate_full week_start s
  (res.1, res.2.2)

/-! ## Approve schedule (`approve_schedule` endpoint of server.py) -/

/-! ## Approve schedule (`approve_schedule` endpoint of server.py) -/

/-- Summary the approve endpoint returns. -/
structure ApproveSummary where
  success : Bool
  ready_days_approved : Nat
  reservations_created : Nat
  deriving DecidableEq

/-- One reservation per requirement record of the day. -/
def insert_reservations (day : ScheduleDayRow) :
    List DayRequirementRow → State → State
  | [], s => s
  | q :: qs, s =>
    insert_reservations day qs
      { s with
        refs := { s.refs with
          inventory_reservations := s.refs.inventory_reservations ++
            [⟨s.next_id, q.item_id, "SCHEDULE_DAY", day.id, q.required_qty⟩] }
        next_id := s.next_id + 1 }

/-- Approve one READY day: reserve every requirement, then write the status
back (kept at READY, as the source does). -/
def approve_day (day : ScheduleDayRow) (s : State) : Nat × State :=
  let reqs := s.production_day_requirements.filter fun q =>
    q.schedule_day_id == day.id
  let s1 := insert_reservations day reqs s
  (reqs.length,
    { s1 with
      production_schedule_days := s1.production_schedule_days.map fun d =>
        if d.id = day.id then { d with status := "READY" } else d })

/-- Fold of the approve loop over the snapshot of READY days. -/
def approve_days : List ScheduleDayRow → State → Nat × State
  | [], s => (0, s)
  | d :: ds, s =>
    let r1 := approve_day d s
    let r2 := approve_days ds r1.2
    (r1.1 + r2.1, r2.2)

/-- `approve_schedule(week_start)`: materialise reservations for every READY
day of the week. -/
def approve_schedule (week_start : Int) (s : State) : ApproveSummary × State :=
  let ready := s.production_schedule_days.filter fun d =>
    d.week_start == week_start && d.status == "READY"
  let r := approve_days ready s
  (⟨true, ready.length, r.1⟩, r.2)

/-! ## Frame lemmas: which collections each mutator touches -/

/-! ## Concrete states used by scenario witnesses and counterexamples -/

/-- An empty reference store, to be overridden field by field. -/
def empty_refs : Refs :=
  { products := [], packaging := [], product_packaging_specs := []
    product_boms := [], product_bom_items := [], packaging_boms := []
    packaging_bom_items := [], inventory_items := [], inventory_balances := []
    inventory_reservations := [], purchase_orders := [], purchase_order_lines := []
    job_orders := [] }

/-- A store holding only reference data, no scheduling rows yet. -/
def fresh_state (r : Refs) : State :=
  ⟨r, [], [], [], [], [], [], 1000⟩

/-- Scenario 1 of the specification: three campaigns of 400, 300 and 1 drums
due in increasing date order, conversion deliberately unresolvable so that
allocation alone is exercised. -/
def scenario1_refs : Refs :=
  { empty_refs with
    products := [⟨1, "MANUFACTURED", none⟩, ⟨2, "MANUFACTURED", none⟩,
      ⟨3, "MANUFACTURED", none⟩]
    packaging := [⟨20, 200, none⟩]
    product_boms := [⟨11, 1, 1, true⟩, ⟨12, 2, 1, true⟩, ⟨13, 3, 1, true⟩]
    job_orders := [⟨101, 1, 20, none, none, 400, 0, "pending", "DRUM"⟩,
      ⟨102, 2, 20, none, none, 300, 1, "pending", "DRUM"⟩,
      ⟨103, 3, 20, none, none, 1, 2, "pending", "DRUM"⟩] }

/-- A fully configured single-product store: conversion via packaging
default, one RAW formulation item, ample stock, so a run yields one READY
day with one requirement row. -/
def single_refs : Refs :=
  { empty_refs with
    products := [⟨1, "MANUFACTURED", none⟩]
    packaging := [⟨20, 200, some 1⟩]
    product_boms := [⟨11, 1, 1, true⟩]
    product_bom_items := [⟨11, 3, 1⟩]
    inventory_items := [⟨3, "KG"⟩]
    inventory_balances := [⟨3, 100⟩]
    job_orders := [⟨101, 1, 20, none, none, 5, 0, "pending", "DRUM"⟩] }

/-- Reference data for the capacity counterexample: one schedulable campaign
of 600 drums for a store already holding an advanced (READY) 600-drum day on
the same date. -/
def c1_refs : Refs :=
  { empty_refs with
    products := [⟨1, "MANUFACTURED", none⟩]
    packaging := [⟨20, 200, none⟩]
    product_boms := [⟨11, 1, 1, true⟩]
    job_orders := [⟨101, 1, 20, none, none, 600, 0, "pending", "DRUM"⟩] }

/-- Store with a pre-existing READY day of 600 drums on the regenerated date. -/
def c1_state : State :=
  { fresh_state c1_refs with
    production_schedule_days := [⟨1, 0, 0, 77, 600, "READY", "NONE"⟩] }

/-- Store with a pre-existing DRAFT day and no open job orders. -/
def c10_state : State :=
  { fresh_state empty_refs with
    production_schedule_days := [⟨1, 0, 0, 77, 5, "DRAFT", "NONE"⟩] }

/-! ## Claim theorems -/

/-- Campaign aggregate for the C7 witness: a fresh 300-drum campaign. -/
def c7_new : CampaignData := ⟨1, 20, none, 11, 1, 300, some 0, []⟩

/-- The campaign already occupying part of day 0 in the C7 witness. -/
def c7_other : CampaignData := ⟨2, 20, none, 12, 1, 400, some 0, []⟩

/-- Day profile for the C7 witness: 400 drums already placed on day 0. -/
def c7_days : List (List (CampaignData × Nat)) :=
  [[(c7_other, 400)], [], [], [], [], [], []]

/-- Store for the C6 witness: a persisted campaign whose product has no
conversion configured anywhere. -/
def c6_state : State :=
  { fresh_state c1_refs with
    production_campaigns := [⟨40, 1, 20, none, 11, 1, 600, some 0, "DRAFT"⟩] }

/-- Reference data for the C2 witness: 10,000 kg on hand and a SENT order. -/
def c2_refs : Refs :=
  { empty_refs with
    inventory_balances := [⟨3, 10000⟩]
    purchase_orders := [⟨70, "SENT"⟩] }

/-- The 2,000 kg inbound line of the C2 witness, promised for day 0. -/
def c2_line : PurchaseOrderLineRow := ⟨70, 3, 2000, 0, some 0⟩

/-- The blocked day driving the C4 counterexample. -/
def c4_day : ScheduleDayRow := ⟨9, 0, 0, 7, 5, "BLOCKED", "RAW_SHORTAGE"⟩

/-- Store already holding a DRAFT requisition with a 100 kg line for the
same (requisition, item, required-by, schedule-day) key. -/
def c4_state : State :=
  { fresh_state empty_refs with
    procurement_requisitions := [⟨500, "DRAFT", "note"⟩]
    procurement_requisition_lines :=
      [⟨501, 500, 3, "RAW", 100, "KG", 0, 7, 9, "r"⟩] }

/-- Store with one READY day carrying one requirement row. -/
def c9_state : State :=
  { fresh_state empty_refs with
    production_schedule_days := [⟨1, 0, 0, 7, 5, "READY", "NONE"⟩]
    production_day_requirements := [⟨2, 1, 3, "RAW", 5, 100, 0⟩] }

/-! ## Theorems -/

theorem net_weight_fallback_eq (r : Refs) (pid pkid : Nat) :
    net_weight_fallback r pid pkid =
      (spec_tier2 r pkid).orElse fun _ => spec_tier3 r pid pkid := by
  unfold net_weight_fallback spec_tier2 spec_tier3 net_weight_density
  rcases hpk : r.packaging.find? fun pk => pk.id == pkid with _ | pk
  · simp [hpk, Option.orElse]
  · rcases hd : pk.net_weight_kg_default with _ | w
    · rcases hp : r.products.find? fun p => p.id == pid with _ | p
      · simp [hpk, hd, hp, Option.orElse]
      · rcases hq : p.density_kg_per_l with _ | dq
        · simp [hpk, hd, hp, hq, Option.orElse]
        · by_cases h : pk.capacity_liters ≠ 0 ∧ dq ≠ 0 <;>
            simp [hpk, hd, hp, hq, h, Option.orElse]
    · by_cases hw : w ≠ 0
      · simp [hpk, hd, hw, Option.orElse]
      · rcases hp : r.products.find? fun p => p.id == pid with _ | p
        · simp [hpk, hd, hp, hw, Option.orElse]
        · rcases hq : p.density_kg_per_l with _ | dq
          · simp [hpk, hd, hp, hq, hw, Option.orElse]
          · by_cases h : pk.capacity_liters ≠ 0 ∧ dq ≠ 0 <;>
              simp [hpk, hd, hp, hq, hw, h, Option.orElse]

theorem get_net_weight_eq_spec (r : Refs) (pid pkid : Nat) :
    get_net_weight_kg r pid pkid = spec_net_weight r pid pkid := by
  unfold get_net_weight_kg spec_net_weight spec_tier1
  rcases hsp : r.product_packaging_specs.find? (fun sp =>
      sp.product_id == pid && sp.packaging_id == pkid) with _ | sp
  · simp [hsp, net_weight_fallback_eq, Option.orElse]
  · by_cases hw : sp.net_weight_kg ≠ 0 <;>
      simp [hsp, hw, net_weight_fallback_eq, Option.orElse]

theorem sum_filter_pos_eq_sum_max (l : List ℚ) :
    ((l.filter fun q => decide (0 < q)).sum) = (l.map fun q => max 0 q).sum := by
  induction l with
  | nil => simp
  | cons a t ih =>
    by_cases h : 0 < a
    · simp [List.filter_cons, h, ih, max_eq_right (le_of_lt h)]
    · simp [List.filter_cons, h, ih, max_eq_left (le_of_not_lt h)]

theorem get_available_eq_spec (r : Refs) (item_id : Nat) (d : Int) :
    get_available_quantity r item_id d = spec_availability r item_id d := by
  unfold get_available_quantity spec_availability
  dsimp only
  rw [sum_filter_pos_eq_sum_max, List.map_map]
  rfl

/-! ## Demand consolidation (`ConsolidationKey`, `CampaignData`, step 2) -/

theorem day_sum_append (a b : List (CampaignData × Nat)) :
    day_sum (a ++ b) = day_sum a + day_sum b := by
  simp [day_sum]

theorem day_sum_single (cd : CampaignData) (n : Nat) :
    day_sum [(cd, n)] = n := by
  simp [day_sum]

theorem alloc_campaign_length (cap : Nat) (cd : CampaignData) :
    ∀ (rem : Nat) (ds : List (List (CampaignData × Nat))),
      (alloc_campaign cap cd rem ds).length = ds.length
  | _, [] => rfl
  | rem, d :: ds => by
    simp [alloc_campaign, alloc_campaign_length cap cd _ ds]

theorem alloc_campaign_day_sum_le (cap : Nat) (cd : CampaignData) :
    ∀ (rem : Nat) (ds : List (List (CampaignData × Nat))),
      (∀ d ∈ ds, day_sum d ≤ cap) →
      ∀ d ∈ alloc_campaign cap cd rem ds, day_sum d ≤ cap
  | rem, [], _ => by simp [alloc_campaign]
  | rem, d :: ds, h => by
    intro d' hd'
    simp only [alloc_campaign, List.mem_cons] at hd'
    rcases hd' with rfl | hd'
    · have hd := h d (List.mem_cons_self d ds)
      by_cases h0 : min rem (cap - day_sum d) = 0
      · simpa [h0] using hd
      · have ht : min rem (cap - day_sum d) ≤ cap - day_sum d := Nat.min_le_right _ _
        rw [if_neg h0, day_sum_append, day_sum_single]
        omega
    · exact alloc_campaign_day_sum_le cap cd _ ds
        (fun x hx => h x (List.mem_cons_of_mem d hx)) d' hd'

theorem alloc_all_day_sum_le_aux (cap : Nat) :
    ∀ (cds : List CampaignData) (init : List (List (CampaignData × Nat))),
      (∀ d ∈ init, day_sum d ≤ cap) →
      ∀ d ∈ cds.foldl (fun days cd => alloc_campaign cap cd cd.total_drums days) init,
        day_sum d ≤ cap
  | [], init, h => by simpa using h
  | cd :: cds, init, h => by
    intro d hd
    simp only [List.foldl_cons] at hd
    exact alloc_all_day_sum_le_aux cap cds _
      (alloc_campaign_day_sum_le cap cd _ init h) d hd

/-- Every day profile produced by the allocator respects the daily capacity. -/
theorem alloc_all_day_sum_le (cap : Nat) (cds : List CampaignData) :
    ∀ d ∈ alloc_all cap cds, day_sum d ≤ cap := by
  intro d hd
  refine alloc_all_day_sum_le_aux cap cds (List.replicate 7 []) ?_ d hd
  intro x hx
  rcases List.eq_of_mem_replicate hx with rfl
  simp [day_sum]

theorem campaign_takes_sum (cap : Nat) :
    ∀ (rem : Nat) (us : List Nat),
      (campaign_takes cap rem us).sum = min rem ((us.map fun u => cap - u).sum)
  | rem, [] => by simp [campaign_takes]
  | rem, u :: us => by
    have ih := campaign_takes_sum cap (rem - min rem (cap - u)) us
    simp only [campaign_takes, List.sum_cons, List.map_cons, ih]
    omega

theorem alloc_campaign_allocated (cap : Nat) (cd : CampaignData) :
    ∀ (rem : Nat) (ds : List (List (CampaignData × Nat))),
      (∀ d ∈ ds, ∀ e ∈ d, e.1 ≠ cd) →
      allocated_to cd (alloc_campaign cap cd rem ds) =
        (campaign_takes cap rem (ds.map day_sum)).sum
  | rem, [], _ => by simp [alloc_campaign, allocated_to, campaign_takes]
  | rem, d :: ds, h => by
    have hfresh : ∀ e ∈ d, e.1 ≠ cd := h d (List.mem_cons_self d ds)
    have hfilter : d.filter (fun e => decide (e.1 = cd)) = [] := by
      apply List.filter_eq_nil_iff.2
      intro e he
      simpa using hfresh e he
    have ih := alloc_campaign_allocated cap cd (rem - min rem (cap - day_sum d)) ds
      (fun x hx => h x (List.mem_cons_of_mem d hx))
    simp only [allocated_to] at ih
    simp only [alloc_campaign, allocated_to, List.map_cons, List.sum_cons,
      campaign_takes]
    by_cases h0 : min rem (cap - day_sum d) = 0
    · rw [if_pos h0]
      rw [h0, Nat.sub_zero] at ih
      simp [hfilter, ih, h0]
    · rw [if_neg h0]
      simp [List.filter_append, hfilter, ih]

/-! ## Persisted scheduling rows and the mutable state -/

/-! ## Frame lemmas: which collections each mutator touches -/

theorem insert_requirements_days (day_id : Nat) :
    ∀ (qs : List ReqSpec) (s : State),
      (insert_requirements day_id qs s).production_schedule_days =
        s.production_schedule_days
  | [], _ => rfl
  | _ :: qs, s => insert_requirements_days day_id qs _

theorem insert_requirements_refs (day_id : Nat) :
    ∀ (qs : List ReqSpec) (s : State),
      (insert_requirements day_id qs s).refs = s.refs
  | [], _ => rfl
  | _ :: qs, s => insert_requirements_refs day_id qs _

theorem insert_requirements_campaigns (day_id : Nat) :
    ∀ (qs : List ReqSpec) (s : State),
      (insert_requirements day_id qs s).production_campaigns =
        s.production_campaigns
  | [], _ => rfl
  | _ :: qs, s => insert_requirements_campaigns day_id qs _

theorem insert_requirements_reqs (day_id : Nat) :
    ∀ (qs : List ReqSpec) (s : State), ∃ t,
      (insert_requirements day_id qs s).production_day_requirements =
        s.production_day_requirements ++ t
  | [], s => ⟨[], by simp [insert_requirements]⟩
  | q :: qs, s => by
    obtain ⟨t, ht⟩ := insert_requirements_reqs day_id qs
      { s with
        production_day_requirements := s.production_day_requirements ++
          [⟨s.next_id, day_id, q.item_id, q.item_type, q.required_qty,
            q.available_qty_snapshot, q.shortage_qty⟩]
        next_id := s.next_id + 1 }
    refine ⟨[⟨s.next_id, day_id, q.item_id, q.item_type, q.required_qty,
      q.available_qty_snapshot, q.shortage_qty⟩] ++ t, ?_⟩
    unfold insert_requirements
    rw [ht]
    simp

theorem create_pr_lines_days (pr_id : Nat) (day : ScheduleDayRow) :
    ∀ (shs : List ShortageRec) (s : State),
      (create_pr_lines pr_id day shs s).production_schedule_days =
        s.production_schedule_days
  | [], _ => rfl
  | sh :: rest, s => by
    unfold create_pr_lines
    split
    · exact create_pr_lines_days pr_id day rest s
    · exact create_pr_lines_days pr_id day rest _

theorem create_pr_lines_refs (pr_id : Nat) (day : ScheduleDayRow) :
    ∀ (shs : List ShortageRec) (s : State),
      (create_pr_lines pr_id day shs s).refs = s.refs
  | [], _ => rfl
  | sh :: rest, s => by
    unfold create_pr_lines
    split
    · exact create_pr_lines_refs pr_id day rest s
    · exact create_pr_lines_refs pr_id day rest _

theorem create_pr_lines_campaigns (pr_id : Nat) (day : ScheduleDayRow) :
    ∀ (shs : List ShortageRec) (s : State),
      (create_pr_lines pr_id day shs s).production_campaigns =
        s.production_campaigns
  | [], _ => rfl
  | sh :: rest, s => by
    unfold create_pr_lines
    split
    · exact create_pr_lines_campaigns pr_id day rest s
    · exact create_pr_lines_campaigns pr_id day rest _

theorem create_pr_lines_reqs (pr_id : Nat) (day : ScheduleDayRow) :
    ∀ (shs : List ShortageRec) (s : State),
      (create_pr_lines pr_id day shs s).production_day_requirements =
        s.production_day_requirements
  | [], _ => rfl
  | sh :: rest, s => by
    unfold create_pr_lines
    split
    · exact create_pr_lines_reqs pr_id day rest s
    · exact create_pr_lines_reqs pr_id day rest _

theorem create_pr_lines_prs (pr_id : Nat) (day : ScheduleDayRow) :
    ∀ (shs : List ShortageRec) (s : State),
      (create_pr_lines pr_id day shs s).procurement_requisitions =
        s.procurement_requisitions
  | [], _ => rfl
  | sh :: rest, s => by
    unfold create_pr_lines
    split
    · exact create_pr_lines_prs pr_id day rest s
    · exact create_pr_lines_prs pr_id day rest _

theorem create_procurement_requisitions_days (day : ScheduleDayRow)
    (shs : List ShortageRec) (s : State) :
    (create_procurement_requisitions day shs s).production_schedule_days =
      s.production_schedule_days := by
  unfold create_procurement_requisitions
  split
  · exact create_pr_lines_days _ day shs s
  · exact create_pr_lines_days _ day shs _

theorem create_procurement_requisitions_refs (day : ScheduleDayRow)
    (shs : List ShortageRec) (s : State) :
    (create_procurement_requisitions day shs s).refs = s.refs := by
  unfold create_procurement_requisitions
  split
  · exact create_pr_lines_refs _ day shs s
  · exact create_pr_lines_refs _ day shs _

theorem create_procurement_requisitions_campaigns (day : ScheduleDayRow)
    (shs : List ShortageRec) (s : State) :
    (create_procurement_requisitions day shs s).production_campaigns =
      s.production_campaigns := by
  unfold create_procurement_requisitions
  split
  · exact create_pr_lines_campaigns _ day shs s
  · exact create_pr_lines_campaigns _ day shs _

theorem create_procurement_requisitions_reqs (day : ScheduleDayRow)
    (shs : List ShortageRec) (s : State) :
    (create_procurement_requisitions day shs s).production_day_requirements =
      s.production_day_requirements := by
  unfold create_procurement_requisitions
  split
  · exact create_pr_lines_reqs _ day shs s
  · exact create_pr_lines_reqs _ day shs _

theorem insert_links_days (campaign_id : Nat) :
    ∀ (ls : List (Nat × Nat)) (s : State),
      (insert_links campaign_id ls s).production_schedule_days =
        s.production_schedule_days
  | [], _ => rfl
  | (_, _) :: rest, s => insert_links_days campaign_id rest _

theorem insert_links_refs (campaign_id : Nat) :
    ∀ (ls : List (Nat × Nat)) (s : State),
      (insert_links campaign_id ls s).refs = s.refs
  | [], _ => rfl
  | (_, _) :: rest, s => insert_links_refs campaign_id rest _

theorem insert_links_campaigns (campaign_id : Nat) :
    ∀ (ls : List (Nat × Nat)) (s : State),
      (insert_links campaign_id ls s).production_campaigns =
        s.production_campaigns
  | [], _ => rfl
  | (_, _) :: rest, s => insert_links_campaigns campaign_id rest _

theorem insert_links_reqs (campaign_id : Nat) :
    ∀ (ls : List (Nat × Nat)) (s : State),
      (insert_links campaign_id ls s).production_day_requirements =
        s.production_day_requirements
  | [], _ => rfl
  | (_, _) :: rest, s => insert_links_reqs campaign_id rest _

theorem insert_campaigns_days :
    ∀ (cds : List CampaignData) (s : State),
      (insert_campaigns cds s).production_schedule_days =
        s.production_schedule_days
  | [], _ => rfl
  | cd :: rest, s => by
    unfold insert_campaigns
    rw [insert_campaigns_days rest _, insert_links_days]

theorem insert_campaigns_refs :
    ∀ (cds : List CampaignData) (s : State),
      (insert_campaigns cds s).refs = s.refs
  | [], _ => rfl
  | cd :: rest, s => by
    unfold insert_campaigns
    rw [insert_campaigns_refs rest _, insert_links_refs]

theorem insert_campaigns_reqs :
    ∀ (cds : List CampaignData) (s : State),
      (insert_campaigns cds s).production_day_requirements =
        s.production_day_requirements
  | [], _ => rfl
  | cd :: rest, s => by
    unfold insert_campaigns
    rw [insert_campaigns_reqs rest _, insert_links_reqs]

theorem insert_campaigns_extends :
    ∀ (cds : List CampaignData) (s : State), ∃ t,
      (insert_campaigns cds s).production_campaigns =
        s.production_campaigns ++ t
  | [], s => ⟨[], by simp [insert_campaigns]⟩
  | cd :: rest, s => by
    obtain ⟨t, ht⟩ := insert_campaigns_extends rest
      (insert_links (mk_campaign_row s.next_id cd).id cd.job_links
        { s with
          production_campaigns := s.production_campaigns ++
            [mk_campaign_row s.next_id cd]
          next_id := s.next_id + 1 })
    refine ⟨mk_campaign_row s.next_id cd :: t, ?_⟩
    unfold insert_campaigns
    rw [ht, insert_links_campaigns]
    simp

theorem classify_day_status_ne_draft (reqs : List ReqSpec)
    (shorts : List ShortageRec) :
    (classify_day reqs shorts).status ≠ "DRAFT" := by
  unfold classify_day
  split <;> simp

/-- Every evaluated day leaves DRAFT: the checker classifies each day as
READY or as BLOCKED with a reason, on every code path. -/
theorem eval_day_status_ne_draft (r : Refs) (pid pkid bid n : Nat) (dt : Int) :
    (eval_day r pid pkid bid n dt).status ≠ "DRAFT" := by
  unfold eval_day
  rcases get_net_weight_kg r pid pkid with _ | w
  · simp
  · dsimp only
    split
    · simp
    · split
      · simp
      · exact classify_day_status_ne_draft _ _

theorem ite_days (c : Prop) [Decidable c] (a b : State) :
    (if c then a else b).production_schedule_days =
      if c then a.production_schedule_days else b.production_schedule_days :=
  apply_ite _ c a b

theorem ite_refs (c : Prop) [Decidable c] (a b : State) :
    (if c then a else b).refs = if c then a.refs else b.refs :=
  apply_ite _ c a b

theorem ite_campaigns (c : Prop) [Decidable c] (a b : State) :
    (if c then a else b).production_campaigns =
      if c then a.production_campaigns else b.production_campaigns :=
  apply_ite _ c a b

theorem ite_reqs (c : Prop) [Decidable c] (a b : State) :
    (if c then a else b).production_day_requirements =
      if c then a.production_day_requirements
      else b.production_day_requirements :=
  apply_ite _ c a b

theorem day_entry_state_row (w dt : Int) (drums : Nat)
    (c : ProductionCampaignRow) (s : State) :
    (day_entry_state w dt drums c s).1 =
      ⟨s.next_id, w, dt, c.id, drums,
        (eval_day s.refs c.product_id c.packaging_id c.bom_id drums dt).status,
        (eval_day s.refs c.product_id c.packaging_id c.bom_id drums dt).blocking_reason⟩ :=
  rfl

theorem day_entry_state_days (w dt : Int) (drums : Nat)
    (c : ProductionCampaignRow) (s : State) :
    (day_entry_state w dt drums c s).2.production_schedule_days =
      s.production_schedule_days ++ [(day_entry_state w dt drums c s).1] := by
  unfold day_entry_state
  dsimp only
  rw [ite_days]
  simp [create_procurement_requisitions_days, insert_requirements_days]

theorem day_entry_state_refs (w dt : Int) (drums : Nat)
    (c : ProductionCampaignRow) (s : State) :
    (day_entry_state w dt drums c s).2.refs = s.refs := by
  unfold day_entry_state
  dsimp only
  rw [ite_refs]
  simp [create_procurement_requisitions_refs, insert_requirements_refs]

theorem day_entry_state_campaigns (w dt : Int) (drums : Nat)
    (c : ProductionCampaignRow) (s : State) :
    (day_entry_state w dt drums c s).2.production_campaigns =
      s.production_campaigns := by
  unfold day_entry_state
  dsimp only
  rw [ite_campaigns]
  simp [create_procurement_requisitions_campaigns, insert_requirements_campaigns]

theorem day_entry_state_reqs (w dt : Int) (drums : Nat)
    (c : ProductionCampaignRow) (s : State) :
    ∃ t, (day_entry_state w dt drums c s).2.production_day_requirements =
      s.production_day_requirements ++ t := by
  unfold day_entry_state
  dsimp only
  obtain ⟨t, ht⟩ := insert_requirements_reqs s.next_id
    (eval_day s.refs c.product_id c.packaging_id c.bom_id drums dt).reqs
    { s with next_id := s.next_id + 1 }
  refine ⟨t, ?_⟩
  rw [ite_reqs]
  simp [create_procurement_requisitions_reqs, ht]

theorem create_day_rows_days (w dt : Int) :
    ∀ (es : List (CampaignData × Nat)) (s : State),
      (create_day_rows w dt es s).2.production_schedule_days =
        s.production_schedule_days ++ (create_day_rows w dt es s).1
  | [], s => by simp [create_day_rows]
  | (cd, drums) :: rest, s => by
    unfold create_day_rows
    split
    · exact create_day_rows_days w dt rest s
    · dsimp only
      rw [create_day_rows_days w dt rest _, day_entry_state_days]
      simp

theorem create_day_rows_refs (w dt : Int) :
    ∀ (es : List (CampaignData × Nat)) (s : State),
      (create_day_rows w dt es s).2.refs = s.refs
  | [], s => rfl
  | (cd, drums) :: rest, s => by
    unfold create_day_rows
    split
    · exact create_day_rows_refs w dt rest s
    · dsimp only
      rw [create_day_rows_refs w dt rest _, day_entry_state_refs]

theorem create_day_rows_campaigns (w dt : Int) :
    ∀ (es : List (CampaignData × Nat)) (s : State),
      (create_day_rows w dt es s).2.production_campaigns =
        s.production_campaigns
  | [], s => rfl
  | (cd, drums) :: rest, s => by
    unfold create_day_rows
    split
    · exact create_day_rows_campaigns w dt rest s
    · dsimp only
      rw [create_day_rows_campaigns w dt rest _, day_entry_state_campaigns]

theorem create_day_rows_reqs (w dt : Int) :
    ∀ (es : List (CampaignData × Nat)) (s : State), ∃ t,
      (create_day_rows w dt es s).2.production_day_requirements =
        s.production_day_requirements ++ t
  | [], s => ⟨[], by simp [create_day_rows]⟩
  | (cd, drums) :: rest, s => by
    unfold create_day_rows
    split
    · exact create_day_rows_reqs w dt rest s
    · dsimp only
      next c _ =>
      obtain ⟨t1, ht1⟩ := day_entry_state_reqs w dt drums c s
      obtain ⟨t2, ht2⟩ :=
        create_day_rows_reqs w dt rest (day_entry_state w dt drums c s).2
      exact ⟨t1 ++ t2, by rw [ht2, ht1, List.append_assoc]⟩

theorem create_day_rows_mem (w dt : Int) :
    ∀ (es : List (CampaignData × Nat)) (s : State),
      ∀ row ∈ (create_day_rows w dt es s).1,
        row.week_start = w ∧ row.schedule_date = dt ∧ row.status ≠ "DRAFT"
  | [], s => by simp [create_day_rows]
  | (cd, drums) :: rest, s => by
    intro row hrow
    unfold create_day_rows at hrow
    split at hrow
    · exact create_day_rows_mem w dt rest s row hrow
    · next c _ =>
      dsimp only at hrow
      rcases List.mem_cons.1 hrow with rfl | hrow
      · rw [day_entry_state_row]
        exact ⟨rfl, rfl, eval_day_status_ne_draft _ _ _ _ _ _⟩
      · exact create_day_rows_mem w dt rest _ row hrow

theorem create_day_rows_planned (w dt : Int) :
    ∀ (es : List (CampaignData × Nat)) (s : State),
      (((create_day_rows w dt es s).1.map fun r => r.planned_drums)).sum ≤
        day_sum es
  | [], s => by simp [create_day_rows]
  | (cd, drums) :: rest, s => by
    unfold create_day_rows
    split
    · calc ((create_day_rows w dt rest s).1.map fun r => r.planned_drums).sum
          ≤ day_sum rest := create_day_rows_planned w dt rest s
        _ ≤ day_sum ((cd, drums) :: rest) := by simp [day_sum]
    · next c _ =>
      dsimp only
      have h := create_day_rows_planned w dt rest (day_entry_state w dt drums c s).2
      simp only [List.map_cons, List.sum_cons, day_entry_state_row]
      simp only [day_sum, List.map_cons, List.sum_cons] at h ⊢
      omega

theorem sum_map_filter_le {α : Type u} (f : α → Nat) (p : α → Bool) :
    ∀ (l : List α), ((l.filter p).map f).sum ≤ (l.map f).sum
  | [] => le_refl _
  | a :: l => by
    by_cases h : p a
    · simp only [List.filter_cons, h, if_true, List.map_cons, List.sum_cons]
      exact Nat.add_le_add_left (sum_map_filter_le f p l) _
    · simp only [List.filter_cons, h, if_false, List.map_cons, List.sum_cons]
      exact le_trans (sum_map_filter_le f p l) (Nat.le_add_left _ _)

theorem create_all_days_days (w : Int) :
    ∀ (off : Nat) (dal : List (List (CampaignData × Nat))) (s : State),
      (create_all_days w off dal s).2.production_schedule_days =
        s.production_schedule_days ++ (create_all_days w off dal s).1
  | _, [], s => by simp [create_all_days]
  | off, es :: rest, s => by
    unfold create_all_days
    dsimp only
    rw [create_all_days_days w (off + 1) rest _, create_day_rows_days]
    simp

theorem create_all_days_refs (w : Int) :
    ∀ (off : Nat) (dal : List (List (CampaignData × Nat))) (s : State),
      (create_all_days w off dal s).2.refs = s.refs
  | _, [], s => rfl
  | off, es :: rest, s => by
    unfold create_all_days
    dsimp only
    rw [create_all_days_refs w (off + 1) rest _, create_day_rows_refs]

theorem create_all_days_campaigns (w : Int) :
    ∀ (off : Nat) (dal : List (List (CampaignData × Nat))) (s : State),
      (create_all_days w off dal s).2.production_campaigns =
        s.production_campaigns
  | _, [], s => rfl
  | off, es :: rest, s => by
    unfold create_all_days
    dsimp only
    rw [create_all_days_campaigns w (off + 1) rest _, create_day_rows_campaigns]

theorem create_all_days_reqs (w : Int) :
    ∀ (off : Nat) (dal : List (List (CampaignData × Nat))) (s : State), ∃ t,
      (create_all_days w off dal s).2.production_day_requirements =
        s.production_day_requirements ++ t
  | _, [], s => ⟨[], by simp [create_all_days]⟩
  | off, es :: rest, s => by
    obtain ⟨t1, ht1⟩ := create_day_rows_reqs w (w + (off : Int)) es s
    obtain ⟨t2, ht2⟩ := create_all_days_reqs w (off + 1) rest
      (create_day_rows w (w + (off : Int)) es s).2
    exact ⟨t1 ++ t2, by
      unfold create_all_days
      dsimp only
      rw [ht2, ht1, List.append_assoc]⟩

theorem create_all_days_mem (w : Int) :
    ∀ (off : Nat) (dal : List (List (CampaignData × Nat))) (s : State),
      ∀ row ∈ (create_all_days w off dal s).1,
        row.week_start = w ∧ row.status ≠ "DRAFT" ∧
          ∃ k, off ≤ k ∧ row.schedule_date = w + (k : Int)
  | _, [], s => by simp [create_all_days]
  | off, es :: rest, s => by
    intro row hrow
    unfold create_all_days at hrow
    dsimp only at hrow
    rcases List.mem_append.1 hrow with h | h
    · obtain ⟨hw, hd, hs⟩ := create_day_rows_mem w _ es s row h
      exact ⟨hw, hs, off, le_refl _, hd⟩
    · obtain ⟨hw, hs, k, hk, hd⟩ := create_all_days_mem w (off + 1) rest _ row h
      exact ⟨hw, hs, k, by omega, hd⟩

theorem create_all_days_filter_planned (w : Int) (cap : Nat) :
    ∀ (off : Nat) (dal : List (List (CampaignData × Nat))) (s : State) (dd : Int),
      (∀ es ∈ dal, day_sum es ≤ cap) →
      (((create_all_days w off dal s).1.filter fun row =>
          row.schedule_date == dd).map fun r => r.planned_drums).sum ≤ cap
  | _, [], s, dd, _ => by simp [create_all_days]
  | off, es :: rest, s, dd, h => by
    unfold create_all_days
    dsimp only
    rw [List.filter_append, List.map_append, List.sum_append]
    by_cases hdd : dd = w + (off : Int)
    · have hrest : ((create_all_days w (off + 1) rest
          (create_day_rows w (w + (off : Int)) es s).2).1.filter fun row =>
            row.schedule_date == dd) = [] := by
        apply List.filter_eq_nil_iff.2
        intro row hrow
        obtain ⟨_, _, k, hk, hdate⟩ :=
          create_all_days_mem w (off + 1) rest _ row hrow
        simp only [hdate, hdd, beq_iff_eq]
        intro hcon
        have : k = off := by exact_mod_cast add_left_cancel hcon
        omega
      rw [hrest]
      simp only [List.map_nil, List.sum_nil, Nat.add_zero]
      calc (((create_day_rows w (w + (off : Int)) es s).1.filter fun row =>
              row.schedule_date == dd).map fun r => r.planned_drums).sum
          ≤ ((create_day_rows w (w + (off : Int)) es s).1.map
              fun r => r.planned_drums).sum := sum_map_filter_le _ _ _
        _ ≤ day_sum es := create_day_rows_planned w _ es s
        _ ≤ cap := h es (List.mem_cons_self es rest)
    · have hfirst : ((create_day_rows w (w + (off : Int)) es s).1.filter
          fun row => row.schedule_date == dd) = [] := by
        apply List.filter_eq_nil_iff.2
        intro row hrow
        obtain ⟨_, hdate, _⟩ := create_day_rows_mem w _ es s row hrow
        simp only [hdate, beq_iff_eq]
        intro hcon
        exact hdd hcon.symm
      rw [hfirst]
      simp only [List.map_nil, List.sum_nil, Nat.zero_add]
      exact create_all_days_filter_planned w cap (off + 1) rest _ dd
        fun x hx => h x (List.mem_cons_of_mem es hx)

/-! ## Dedup behaviour of the requisition generator -/

/-! ## Dedup behaviour of the requisition generator -/

theorem pr_line_key_mk (pr_id : Nat) (day : ScheduleDayRow) (sh : ShortageRec)
    (id : Nat) (uom : String) :
    pr_line_key pr_id day sh (mk_pr_line id pr_id day sh uom) = true := by
  simp [pr_line_key, mk_pr_line]

theorem create_pr_lines_lines (pr_id : Nat) (day : ScheduleDayRow) :
    ∀ (shs : List ShortageRec) (s : State), ∃ t,
      (create_pr_lines pr_id day shs s).procurement_requisition_lines =
        s.procurement_requisition_lines ++ t
  | [], s => ⟨[], by simp [create_pr_lines]⟩
  | sh :: rest, s => by
    unfold create_pr_lines
    split
    · exact create_pr_lines_lines pr_id day rest s
    · obtain ⟨t, ht⟩ :=
        create_pr_lines_lines pr_id day rest (add_pr_line pr_id day sh s)
      refine ⟨[mk_pr_line s.next_id pr_id day sh (pr_uom sh s)] ++ t, ?_⟩
      rw [ht]
      simp [add_pr_line]

theorem create_pr_lines_key_exists (pr_id : Nat) (day : ScheduleDayRow) :
    ∀ (shs : List ShortageRec) (s : State) (sh : ShortageRec), sh ∈ shs →
      ∃ ln ∈ (create_pr_lines pr_id day shs s).procurement_requisition_lines,
        pr_line_key pr_id day sh ln = true
  | [], _, _, h => absurd h (List.not_mem_nil _)
  | sh' :: rest, s, sh, hm => by
    unfold create_pr_lines
    cases hf : s.procurement_requisition_lines.find? (pr_line_key pr_id day sh') with
    | some v =>
      rcases List.mem_cons.1 hm with rfl | hm'
      · obtain ⟨t, ht⟩ := create_pr_lines_lines pr_id day rest s
        exact ⟨v, by
          rw [ht]
          exact List.mem_append_left _ (List.mem_of_find?_eq_some hf),
          List.find?_some hf⟩
      · exact create_pr_lines_key_exists pr_id day rest s sh hm'
    | none =>
      rcases List.mem_cons.1 hm with rfl | hm'
      · obtain ⟨t, ht⟩ :=
          create_pr_lines_lines pr_id day rest (add_pr_line pr_id day sh s)
        refine ⟨mk_pr_line s.next_id pr_id day sh (pr_uom sh s), ?_,
          pr_line_key_mk pr_id day sh s.next_id (pr_uom sh s)⟩
        rw [ht]
        apply List.mem_append_left
        simp [add_pr_line]
      · exact create_pr_lines_key_exists pr_id day rest _ sh hm'

theorem create_pr_lines_noop (pr_id : Nat) (day : ScheduleDayRow) :
    ∀ (shs : List ShortageRec) (s : State),
      (∀ sh ∈ shs, ∃ ln ∈ s.procurement_requisition_lines,
        pr_line_key pr_id day sh ln = true) →
      create_pr_lines pr_id day shs s = s
  | [], _, _ => rfl
  | sh :: rest, s, h => by
    unfold create_pr_lines
    have hsome : (s.procurement_requisition_lines.find?
        (pr_line_key pr_id day sh)).isSome := by
      rw [List.find?_isSome]
      obtain ⟨ln, hmem, hk⟩ := h sh (List.mem_cons_self _ _)
      exact ⟨ln, hmem, hk⟩
    obtain ⟨v, hv⟩ := Option.isSome_iff_exists.1 hsome
    rw [hv]
    exact create_pr_lines_noop pr_id day rest s
      fun x hx => h x (List.mem_cons_of_mem _ hx)

/-! ## Structural lemmas about a whole regeneration run -/

/-! ## Structural lemmas about a whole regeneration run -/

theorem regenerate_full_refs (w : Int) (s : State) :
    (regenerate_full w s).2.2.refs = s.refs := by
  unfold regenerate_full
  dsimp only
  split
  · rfl
  · dsimp only
    rw [create_all_days_refs, insert_campaigns_refs]

theorem regenerate_full_campaigns (w : Int) (s : State) :
    ∃ t, (regenerate_full w s).2.2.production_campaigns =
      s.production_campaigns ++ t := by
  unfold regenerate_full
  dsimp only
  split
  · exact ⟨[], by simp⟩
  · dsimp only
    rw [create_all_days_campaigns]
    exact insert_campaigns_extends _ _

theorem regenerate_full_reqs (w : Int) (s : State) :
    ∃ t, (regenerate_full w s).2.2.production_day_requirements =
      s.production_day_requirements ++ t := by
  unfold regenerate_full
  dsimp only
  split
  · exact ⟨[], by simp⟩
  · dsimp only
    obtain ⟨t, ht⟩ := create_all_days_reqs w 0 _
      (insert_campaigns (stable_sort due_le ((consolidate s.refs
        (s.refs.job_orders.filter (job_matches s.refs))).map fun kv => kv.2))
        { s with
          production_schedule_days := s.production_schedule_days.filter fun d =>
            !(d.week_start == w && d.status == "DRAFT") })
    rw [ht, insert_campaigns_reqs]
    exact ⟨t, rfl⟩

theorem regenerate_full_days_of_nonempty (w : Int) (s : State)
    (h : ¬(s.refs.job_orders.filter (job_matches s.refs)).isEmpty = true) :
    (regenerate_full w s).2.2.production_schedule_days =
      (s.production_schedule_days.filter fun d =>
        !(d.week_start == w && d.status == "DRAFT")) ++ (regenerate_full w s).2.1 := by
  unfold regenerate_full
  dsimp only
  rw [if_neg h]
  dsimp only
  rw [create_all_days_days, insert_campaigns_days]

theorem regenerate_full_of_empty (w : Int) (s : State)
    (h : (s.refs.job_orders.filter (job_matches s.refs)).isEmpty = true) :
    regenerate_full w s =
      (⟨true, "No open drum job orders found", 0, 0, none⟩, [], s) := by
  unfold regenerate_full
  dsimp only
  rw [if_pos h]

theorem regenerate_created_mem (w : Int) (s : State) :
    ∀ row ∈ (regenerate_full w s).2.1,
      row.week_start = w ∧ row.status ≠ "DRAFT" := by
  intro row hrow
  unfold regenerate_full at hrow
  dsimp only at hrow
  split at hrow
  · simp at hrow
  · dsimp only at hrow
    obtain ⟨hw, hs, _⟩ := create_all_days_mem w 0 _ _ row hrow
    exact ⟨hw, hs⟩

/-! ## Behaviour of the approve step -/

/-! ## Behaviour of the approve step -/

theorem insert_reservations_days (day : ScheduleDayRow) :
    ∀ (qs : List DayRequirementRow) (s : State),
      (insert_reservations day qs s).production_schedule_days =
        s.production_schedule_days
  | [], _ => rfl
  | _ :: qs, s => insert_reservations_days day qs _

theorem insert_reservations_reqs (day : ScheduleDayRow) :
    ∀ (qs : List DayRequirementRow) (s : State),
      (insert_reservations day qs s).production_day_requirements =
        s.production_day_requirements
  | [], _ => rfl
  | _ :: qs, s => insert_reservations_reqs day qs _

theorem insert_reservations_len (day : ScheduleDayRow) :
    ∀ (qs : List DayRequirementRow) (s : State),
      (insert_reservations day qs s).refs.inventory_reservations.length =
        s.refs.inventory_reservations.length + qs.length
  | [], s => by simp [insert_reservations]
  | q :: qs, s => by
    unfold insert_reservations
    rw [insert_reservations_len day qs _]
    simp only [List.length_append, List.length_cons, List.length_nil]
    omega

theorem row_set_ready_eq (r : ScheduleDayRow) (h : r.status = "READY") :
    { r with status := "READY" } = r := by
  rcases r with ⟨i, w, dt, c, p, st, b⟩
  simp only at h
  rw [h]

theorem update_ready_map (days : List ScheduleDayRow) (day : ScheduleDayRow)
    (hmem : day ∈ days) (hst : day.status = "READY")
    (hnodup : (days.map fun d => d.id).Nodup) :
    (days.map fun d => if d.id = day.id then { d with status := "READY" } else d) =
      days := by
  have hcongr : ∀ r ∈ days,
      (if r.id = day.id then { r with status := "READY" } else r) = r := by
    intro r hr
    by_cases hid : r.id = day.id
    · rw [if_pos hid]
      have hrd : r = day :=
        List.inj_on_of_nodup_map hnodup hr hmem hid
      rw [row_set_ready_eq r (hrd ▸ hst)]
    · rw [if_neg hid]
  calc (days.map fun d =>
        if d.id = day.id then { d with status := "READY" } else d)
      = days.map id := List.map_congr_left hcongr
    _ = days := List.map_id days

theorem approve_day_days (day : ScheduleDayRow) (s : State)
    (hmem : day ∈ s.production_schedule_days) (hst : day.status = "READY")
    (hnodup : (s.production_schedule_days.map fun d => d.id).Nodup) :
    (approve_day day s).2.production_schedule_days =
      s.production_schedule_days := by
  unfold approve_day
  dsimp only
  rw [insert_reservations_days]
  exact update_ready_map _ day hmem hst hnodup

theorem approve_day_reqs (day : ScheduleDayRow) (s : State) :
    (approve_day day s).2.production_day_requirements =
      s.production_day_requirements := by
  unfold approve_day
  dsimp only
  rw [insert_reservations_reqs]

theorem approve_day_count (day : ScheduleDayRow) (s : State) :
    (approve_day day s).1 =
      (s.production_day_requirements.filter fun q =>
        q.schedule_day_id == day.id).length := rfl

theorem approve_day_len (day : ScheduleDayRow) (s : State) :
    (approve_day day s).2.refs.inventory_reservations.length =
      s.refs.inventory_reservations.length + (approve_day day s).1 := by
  unfold approve_day
  dsimp only
  rw [insert_reservations_len]

theorem approve_days_spec :
    ∀ (ds : List ScheduleDayRow) (s : State),
      (∀ d ∈ ds, d ∈ s.production_schedule_days ∧ d.status = "READY") →
      (s.production_schedule_days.map fun d => d.id).Nodup →
      (approve_days ds s).2.production_schedule_days =
          s.production_schedule_days ∧
      (approve_days ds s).2.production_day_requirements =
          s.production_day_requirements ∧
      (approve_days ds s).1 = (ds.map fun d =>
        (s.production_day_requirements.filter fun q =>
          q.schedule_day_id == d.id).length).sum ∧
      (approve_days ds s).2.refs.inventory_reservations.length =
        s.refs.inventory_reservations.length + (approve_days ds s).1
  | [], s, _, _ => ⟨rfl, rfl, rfl, by simp [approve_days]⟩
  | d :: ds, s, hmem, hnodup => by
    obtain ⟨hd, hdst⟩ := hmem d (List.mem_cons_self d ds)
    have h1days := approve_day_days d s hd hdst hnodup
    have h1reqs := approve_day_reqs d s
    have h1len := approve_day_len d s
    have ih := approve_days_spec ds (approve_day d s).2
      (fun x hx => by
        rw [h1days]
        exact hmem x (List.mem_cons_of_mem d hx))
      (by rw [h1days]; exact hnodup)
    unfold approve_days
    dsimp only
    refine ⟨ih.1.trans h1days, ih.2.1.trans h1reqs, ?_, ?_⟩
    · rw [ih.2.2.1, h1reqs, approve_day_count]
      simp
    · rw [ih.2.2.2, h1len, ih.2.2.1]
      omega

/-! ## Concrete states used by scenario witnesses and counterexamples -/

/-! ## Claim theorems -/

/-- C5: the Conversion Resolver tries, in order and first match wins, the
(product, packaging) spec net weight, the packaging default net weight, and
capacity times density (both present); when none of the three resolves it
returns no value and substitutes no numeric default.  (A tier configured
with the value 0 counts as unresolved, exactly as the source's Python
truthiness test treats it.) -/
theorem C5_conversion_resolver_order (r : Refs) (product_id packaging_id : Nat) :
    get_net_weight_kg r product_id packaging_id =
      spec_net_weight r product_id packaging_id :=
  get_net_weight_eq_spec r product_id packaging_id

/-- C10: when the open-job filter matches nothing, regeneration returns a
success summary with zero campaigns and zero schedule days and the store —
including any pre-existing DRAFT schedule days — is left untouched. -/
theorem C10_no_jobs_leaves_store_untouched (w : Int) (s : State)
    (h : (s.refs.job_orders.filter (job_matches s.refs)).isEmpty = true) :
    regenerate_schedule w s =
      (⟨true, "No open drum job orders found", 0, 0, none⟩, s) := by
  unfold regenerate_schedule
  rw [regenerate_full_of_empty w s h]

/-- Witness for C10 at a store holding one DRAFT day and no open job order. -/
theorem C10_witness :
    regenerate_schedule 0 c10_state =
      (⟨true, "No open drum job orders found", 0, 0, none⟩, c10_state) :=
  C10_no_jobs_leaves_store_untouched 0 c10_state (by decide)

/-- C8: a regeneration run deletes only the target week's DRAFT schedule
days: every stored row that is not a DRAFT row of that week survives the run
unaltered, and a row that does not survive was a DRAFT row of that week. -/
theorem C8_only_week_drafts_deleted (w : Int) (s : State) (row : ScheduleDayRow)
    (hmem : row ∈ s.production_schedule_days)
    (hkeep : ¬(row.week_start = w ∧ row.status = "DRAFT")) :
    row ∈ (regenerate_schedule w s).2.production_schedule_days ∧
    ∀ r ∈ s.production_schedule_days,
      r ∉ (regenerate_schedule w s).2.production_schedule_days →
        r.week_start = w ∧ r.status = "DRAFT" := by
  have hgen : ∀ r ∈ s.production_schedule_days,
      ¬(r.week_start = w ∧ r.status = "DRAFT") →
        r ∈ (regenerate_schedule w s).2.production_schedule_days := by
    intro r hr hk
    by_cases hjobs : (s.refs.job_orders.filter (job_matches s.refs)).isEmpty = true
    · unfold regenerate_schedule
      rw [regenerate_full_of_empty w s hjobs]
      exact hr
    · unfold regenerate_schedule
      dsimp only
      rw [regenerate_full_days_of_nonempty w s hjobs]
      apply List.mem_append_left
      apply List.mem_filter.2
      refine ⟨hr, ?_⟩
      simp only [Bool.not_eq_true', Bool.and_eq_false_iff, beq_eq_false_iff_ne]
      by_cases hw : r.week_start = w
      · exact Or.inr fun hs => hk ⟨hw, hs⟩
      · exact Or.inl hw
  refine ⟨hgen row hmem hkeep, ?_⟩
  intro r hr hout
  by_contra hk
  exact hout (hgen r hr hk)

/-- Witness for C8: the READY 600-drum day of `c1_state` survives a
regeneration of its week. -/
theorem C8_witness :
    (⟨1, 0, 0, 77, 600, "READY", "NONE"⟩ : ScheduleDayRow) ∈
      (regenerate_schedule 0 c1_state).2.production_schedule_days :=
  (C8_only_week_drafts_deleted 0 c1_state _ (by decide) (by decide)).1

/-- C1 counterexample: over all stored rows the per-date capacity bound
fails.  In `c1_state` a READY 600-drum day for the regenerated week already
exists; the run ignores it (it deletes only DRAFT rows and allocates against
an empty profile), so after regeneration the rows stored for that date carry
600 + 600 = 1200 planned drums, exceeding the daily capacity of 600. -/
theorem C1_counterexample :
    ((((regenerate_schedule 0 c1_state).2.production_schedule_days.filter
        fun r => r.schedule_date == 0).map fun r => r.planned_drums).sum = 1200) ∧
    daily_capacity < 1200 := by
  constructor
  · decide
  · decide

/-- C1 amended: among the schedule-day rows created by one regeneration run,
the planned drums for any single date never exceed the daily capacity of
600; and in Scenario 1 (campaigns of 400, 300 and 1 drums in due-date order)
the run's day 0 holds 400 + 200 = 600 and day 1 holds 100 + 1 = 101. -/
theorem C1_amended_run_capacity :
    (∀ (w : Int) (s : State) (dd : Int),
      (((regenerate_full w s).2.1.filter fun row =>
        row.schedule_date == dd).map fun r => r.planned_drums).sum ≤
          daily_capacity) ∧
    ((regenerate_full 0 (fresh_state scenario1_refs)).2.1.filter
        fun r => r.schedule_date == 0).map (fun r => r.planned_drums) = [400, 200] ∧
    ((regenerate_full 0 (fresh_state scenario1_refs)).2.1.filter
        fun r => r.schedule_date == 1).map (fun r => r.planned_drums) = [100, 1] := by
  refine ⟨?_, by decide, by decide⟩
  intro w s dd
  unfold regenerate_full
  dsimp only
  split
  · simp
  · dsimp only
    exact create_all_days_filter_planned w daily_capacity 0 _ _ dd
      fun es hes => alloc_all_day_sum_le daily_capacity _ es hes

/-- C7: one campaign's walk over the day profiles allocates exactly
`min(total, free capacity remaining in the window)` to that campaign: a
campaign that fits is conserved in full, a campaign that does not fit drops
the remainder (its allocation is exactly the free capacity), no day exceeds
the capacity, and no day outside the window is created. -/
theorem C7_conservation (cap : Nat) (cd : CampaignData)
    (ds : List (List (CampaignData × Nat)))
    (hfresh : ∀ d ∈ ds, ∀ e ∈ d, e.1 ≠ cd)
    (hcap : ∀ d ∈ ds, day_sum d ≤ cap) :
    allocated_to cd (alloc_campaign cap cd cd.total_drums ds) =
      min cd.total_drums (free_capacity cap ds) ∧
    (cd.total_drums ≤ free_capacity cap ds →
      allocated_to cd (alloc_campaign cap cd cd.total_drums ds) =
        cd.total_drums) ∧
    (∀ d ∈ alloc_campaign cap cd cd.total_drums ds, day_sum d ≤ cap) ∧
    (alloc_campaign cap cd cd.total_drums ds).length = ds.length := by
  have h1 := alloc_campaign_allocated cap cd cd.total_drums ds hfresh
  have h2 := campaign_takes_sum cap cd.total_drums (ds.map day_sum)
  have hmain : allocated_to cd (alloc_campaign cap cd cd.total_drums ds) =
      min cd.total_drums (free_capacity cap ds) := by
    rw [h1, h2]
    unfold free_capacity
    rw [List.map_map]
    rfl
  refine ⟨hmain, ?_, alloc_campaign_day_sum_le cap cd _ ds hcap,
    alloc_campaign_length cap cd _ ds⟩
  intro hfit
  rw [hmain]
  exact Nat.min_eq_left hfit

/-- Witness for C7: the 300-drum campaign fits and is conserved in full. -/
theorem C7_witness :
    allocated_to c7_new (alloc_campaign 600 c7_new c7_new.total_drums c7_days) =
      c7_new.total_drums :=
  (C7_conservation 600 c7_new c7_days (by decide) (by decide)).2.1 (by decide)

/-- C6: every schedule day whose campaign's (product, packaging) pair has no
resolvable net weight is stored as BLOCKED with reason CONVERSION_MISSING,
and processing it emits zero requirement rows (the store's requirements
collection is left unchanged). -/
theorem C6_conversion_missing_blocks (w dt : Int) (drums : Nat)
    (s : State) (c : ProductionCampaignRow)
    (hnw : get_net_weight_kg s.refs c.product_id c.packaging_id = none) :
    (day_entry_state w dt drums c s).1.status = "BLOCKED" ∧
    (day_entry_state w dt drums c s).1.blocking_reason = "CONVERSION_MISSING" ∧
    (day_entry_state w dt drums c s).2.production_day_requirements =
      s.production_day_requirements := by
  have hev : eval_day s.refs c.product_id c.packaging_id c.bom_id drums dt =
      ⟨"BLOCKED", "CONVERSION_MISSING", [], []⟩ := by
    unfold eval_day
    rw [hnw]
  refine ⟨?_, ?_, ?_⟩
  · rw [day_entry_state_row, hev]
  · rw [day_entry_state_row, hev]
  · unfold day_entry_state
    dsimp only
    rw [hev]
    simp [insert_requirements, ite_reqs]

/-- Witness for C6 at the concrete campaign of `c6_state`. -/
theorem C6_witness :
    (day_entry_state 0 0 600
        ⟨40, 1, 20, none, 11, 1, 600, some 0, "DRAFT"⟩ c6_state).1.status =
      "BLOCKED" ∧
    (day_entry_state 0 0 600
        ⟨40, 1, 20, none, 11, 1, 600, some 0, "DRAFT"⟩
        c6_state).1.blocking_reason = "CONVERSION_MISSING" ∧
    (day_entry_state 0 0 600
        ⟨40, 1, 20, none, 11, 1, 600, some 0, "DRAFT"⟩
        c6_state).2.production_day_requirements =
      c6_state.production_day_requirements :=
  C6_conversion_missing_blocks 0 0 600 c6_state
    ⟨40, 1, 20, none, 11, 1, 600, some 0, "DRAFT"⟩ (by decide)

/-- C2: availability equals on-hand (0 with no balance row) minus the
unconditional reservation sum plus the date- and status-gated inbound sum,
the inbound quantity of a line being its not-yet-received remainder; and an
inbound SENT line of 2,000 kg promised on or before the date raises the
availability by exactly 2,000 kg. -/
theorem C2_availability (r : Refs) (item_id : Nat) (d : Int)
    (l : PurchaseOrderLineRow) (p : Int)
    (hitem : l.item_id = item_id) (hqty : l.qty = 2000) (hrec : l.received_qty = 0)
    (hprom : l.promised_delivery_date = some p) (hp : p ≤ d)
    (hpo : ∃ po ∈ r.purchase_orders, po.id = l.po_id ∧ po.status = "SENT") :
    get_available_quantity r item_id d = spec_availability r item_id d ∧
    get_available_quantity
        { r with purchase_order_lines := r.purchase_order_lines ++ [l] }
        item_id d =
      get_available_quantity r item_id d + 2000 := by
  constructor
  · exact get_available_eq_spec r item_id d
  · obtain ⟨po, hmem, hid, hst⟩ := hpo
    have hany : (r.purchase_orders.any fun po =>
        po.id == l.po_id && (po.status == "SENT" || po.status == "PARTIAL")) =
          true := by
      apply List.any_eq_true.2
      exact ⟨po, hmem, by simp [hid, hst]⟩
    unfold get_available_quantity
    dsimp only
    rw [List.filter_append, List.map_append]
    have hfl : (List.filter (fun l : PurchaseOrderLineRow =>
        l.item_id == item_id &&
        (match l.promised_delivery_date with
          | some d' => decide (d' ≤ d)
          | none => false) &&
        r.purchase_orders.any fun po =>
          po.id == l.po_id && (po.status == "SENT" || po.status == "PARTIAL"))
        [l]) = [l] := by
      simp [hitem, hprom, hp, hany]
    rw [hfl]
    have hone : List.filter (fun q : ℚ => decide (0 < q))
        (List.map (fun l : PurchaseOrderLineRow => l.qty - l.received_qty) [l]) =
          [2000] := by
      simp [hqty, hrec]
    rw [List.filter_append, hone, List.sum_append]
    simp only [List.sum_cons, List.sum_nil, add_zero]
    ring

/-- Witness for C2 at the concrete store of Scenario 4. -/
theorem C2_witness :
    get_available_quantity c2_refs 3 0 = spec_availability c2_refs 3 0 ∧
    get_available_quantity
        { c2_refs with
          purchase_order_lines := c2_refs.purchase_order_lines ++ [c2_line] }
        3 0 =
      get_available_quantity c2_refs 3 0 + 2000 :=
  C2_availability c2_refs 3 0 c2_line 0 rfl rfl rfl rfl (by decide)
    ⟨⟨70, "SENT"⟩, by decide, rfl, rfl⟩

/-- C3 counterexample: regenerating the same week twice over `single_refs`
(one schedulable job) does not leave identical rows: the second run doubles
the campaign rows, the week's schedule-day rows and the requirement rows,
because stale campaigns are never deleted and the days created by the first
run (stored READY) are not DRAFT and hence not deleted either. -/
theorem C3_counterexample :
    (regenerate_schedule 0 (fresh_state single_refs)).2.production_campaigns.length
        = 1 ∧
    (regenerate_schedule 0
        (regenerate_schedule 0
          (fresh_state single_refs)).2).2.production_campaigns.length = 2 ∧
    (regenerate_schedule 0
        (fresh_state single_refs)).2.production_schedule_days.length = 1 ∧
    (regenerate_schedule 0
        (regenerate_schedule 0
          (fresh_state single_refs)).2).2.production_schedule_days.length = 2 ∧
    (regenerate_schedule 0
        (fresh_state single_refs)).2.production_day_requirements.length = 1 ∧
    (regenerate_schedule 0
        (regenerate_schedule 0
          (fresh_state single_refs)).2).2.production_day_requirements.length = 2 ∧
    ((regenerate_full 0
        (regenerate_schedule 0 (fresh_state single_refs)).2).2.1.map fun r =>
      (r.week_start, r.schedule_date, r.planned_drums, r.status,
        r.blocking_reason)) =
      ((regenerate_full 0 (fresh_state single_refs)).2.1.map fun r =>
        (r.week_start, r.schedule_date, r.planned_drums, r.status,
          r.blocking_reason)) := by
  decide

/-- C3 amended: regeneration is not idempotent per week.  Only DRAFT days of
the week are deleted, campaigns and requirement rows are never deleted, and
the rows a run creates are stored READY or BLOCKED, so a second run keeps
every row of the first run and appends a fresh set of schedule-day rows
(namely the rows it creates) plus further campaign and requirement rows. -/
theorem C3_amended_rerun_appends (w : Int) (s : State) :
    (regenerate_schedule w
        (regenerate_schedule w s).2).2.production_schedule_days =
      (regenerate_schedule w s).2.production_schedule_days ++
        (regenerate_full w (regenerate_schedule w s).2).2.1 ∧
    (∃ t, (regenerate_schedule w
        (regenerate_schedule w s).2).2.production_campaigns =
      (regenerate_schedule w s).2.production_campaigns ++ t) ∧
    (∃ t, (regenerate_schedule w
        (regenerate_schedule w s).2).2.production_day_requirements =
      (regenerate_schedule w s).2.production_day_requirements ++ t) := by
  have hsch : ∀ x : State, (regenerate_schedule w x).2 = (regenerate_full w x).2.2 :=
    fun _ => rfl
  refine ⟨?_, ?_, ?_⟩
  · by_cases hjobs : (s.refs.job_orders.filter (job_matches s.refs)).isEmpty = true
    · have hs1 : (regenerate_schedule w s).2 = s := by
        rw [hsch, regenerate_full_of_empty w s hjobs]
      rw [hs1, hs1, regenerate_full_of_empty w s hjobs]
      simp
    · have hrefs : ((regenerate_schedule w s).2).refs = s.refs := by
        rw [hsch]
        exact regenerate_full_refs w s
      have hjobs1 : ¬((regenerate_schedule w s).2.refs.job_orders.filter
          (job_matches (regenerate_schedule w s).2.refs)).isEmpty = true := by
        rw [hrefs]
        exact hjobs
      rw [hsch ((regenerate_schedule w s).2),
        regenerate_full_days_of_nonempty w _ hjobs1]
      congr 1
      apply List.filter_eq_self.2
      intro row hrow
      have hdays1 : (regenerate_schedule w s).2.production_schedule_days =
          (s.production_schedule_days.filter fun d =>
            !(d.week_start == w && d.status == "DRAFT")) ++
            (regenerate_full w s).2.1 := by
        rw [hsch]
        exact regenerate_full_days_of_nonempty w s hjobs
      rw [hdays1] at hrow
      rcases List.mem_append.1 hrow with h | h
      · exact (List.mem_filter.1 h).2
      · have hnd := (regenerate_created_mem w s row h).2
        simp only [Bool.not_eq_true', Bool.and_eq_false_iff, beq_eq_false_iff_ne]
        exact Or.inr hnd
  · obtain ⟨t, ht⟩ := regenerate_full_campaigns w (regenerate_schedule w s).2
    exact ⟨t, by rw [hsch ((regenerate_schedule w s).2)]; exact ht⟩
  · obtain ⟨t, ht⟩ := regenerate_full_reqs w (regenerate_schedule w s).2
    exact ⟨t, by rw [hsch ((regenerate_schedule w s).2)]; exact ht⟩

/-- C4 counterexample: an existing line of 100 kg together with a freshly
computed shortage of 200 kg for the same key leaves the store completely
unchanged — the quantity is NOT raised to match the larger shortage. -/
theorem C4_counterexample :
    create_procurement_requisitions c4_day [⟨3, "RAW", 200⟩] c4_state =
      c4_state ∧
    (c4_state.procurement_requisition_lines.map fun l => l.qty) = [100] ∧
    (100 : ℚ) < 200 := by
  decide

/-- C4 amended: requisition-line generation deduplicates by (requisition,
item, required-by date, linked schedule day): it only ever appends lines for
missing keys (existing lines are left entirely unchanged, quantities are
never raised or shrunk), and invoking it a second time with the same day and
shortages changes nothing at all. -/
theorem C4_amended_dedup_noop (day : ScheduleDayRow)
    (shorts : List ShortageRec) (s : State) :
    (∃ t, (create_procurement_requisitions day shorts
        s).procurement_requisition_lines =
      s.procurement_requisition_lines ++ t) ∧
    create_procurement_requisitions day shorts
        (create_procurement_requisitions day shorts s) =
      create_procurement_requisitions day shorts s := by
  constructor
  · unfold create_procurement_requisitions
    split
    · exact create_pr_lines_lines _ day shorts s
    · exact create_pr_lines_lines s.next_id day shorts (add_draft_pr day s)
  · cases hpr : s.procurement_requisitions.find?
        (fun pr => pr.status == "DRAFT") with
    | some pr =>
      have h1 : create_procurement_requisitions day shorts s =
          create_pr_lines pr.id day shorts s := by
        unfold create_procurement_requisitions
        rw [hpr]
      have hprs : (create_pr_lines pr.id day shorts
          s).procurement_requisitions = s.procurement_requisitions :=
        create_pr_lines_prs pr.id day shorts s
      have h2 : create_procurement_requisitions day shorts
          (create_pr_lines pr.id day shorts s) =
          create_pr_lines pr.id day shorts
            (create_pr_lines pr.id day shorts s) := by
        unfold create_procurement_requisitions
        rw [hprs, hpr]
      rw [h1, h2]
      exact create_pr_lines_noop pr.id day shorts _
        fun sh hx => create_pr_lines_key_exists pr.id day shorts s sh hx
    | none =>
      have h1 : create_procurement_requisitions day shorts s =
          create_pr_lines s.next_id day shorts (add_draft_pr day s) := by
        unfold create_procurement_requisitions
        rw [hpr]
      have hprs : (create_pr_lines s.next_id day shorts
          (add_draft_pr day s)).procurement_requisitions =
          s.procurement_requisitions ++
            [⟨s.next_id, "DRAFT",
              "Auto-generated for week " ++ toString day.week_start⟩] := by
        rw [create_pr_lines_prs]
        rfl
      have hfind : ((create_pr_lines s.next_id day shorts
          (add_draft_pr day s)).procurement_requisitions.find?
            fun pr => pr.status == "DRAFT") =
          some ⟨s.next_id, "DRAFT",
            "Auto-generated for week " ++ toString day.week_start⟩ := by
        rw [hprs, List.find?_append, hpr]
        rfl
      have h2 : create_procurement_requisitions day shorts
          (create_pr_lines s.next_id day shorts (add_draft_pr day s)) =
          create_pr_lines s.next_id day shorts
            (create_pr_lines s.next_id day shorts (add_draft_pr day s)) := by
        unfold create_procurement_requisitions
        rw [hfind]
      rw [h1, h2]
      exact create_pr_lines_noop s.next_id day shorts _
        fun sh hx =>
          create_pr_lines_key_exists s.next_id day shorts (add_draft_pr day s) sh hx

theorem approve_schedule_spec (w : Int) (s : State)
    (hnodup : (s.production_schedule_days.map fun d => d.id).Nodup) :
    (approve_schedule w s).2.production_schedule_days =
        s.production_schedule_days ∧
    (approve_schedule w s).2.production_day_requirements =
        s.production_day_requirements ∧
    (approve_schedule w s).1.reservations_created =
      ((s.production_schedule_days.filter fun d =>
          d.week_start == w && d.status == "READY").map fun d =>
        (s.production_day_requirements.filter fun q =>
          q.schedule_day_id == d.id).length).sum ∧
    (approve_schedule w s).2.refs.inventory_reservations.length =
      s.refs.inventory_reservations.length +
        (approve_schedule w s).1.reservations_created := by
  have hready : ∀ d ∈ (s.production_schedule_days.filter fun d =>
      d.week_start == w && d.status == "READY"),
      d ∈ s.production_schedule_days ∧ d.status = "READY" := by
    intro d hd
    have h := List.mem_filter.1 hd
    refine ⟨h.1, ?_⟩
    have h2 := h.2
    simp only [Bool.and_eq_true, beq_iff_eq] at h2
    exact h2.2
  exact approve_days_spec _ s hready hnodup

/-- C9 counterexample: approving the same week twice with no intervening
change doubles the reservation rows — the second invocation inserts the same
reservation again instead of creating nothing. -/
theorem C9_counterexample :
    (approve_schedule 0 c9_state).2.refs.inventory_reservations.length = 1 ∧
    (approve_schedule 0
        (approve_schedule 0
          c9_state).2).2.refs.inventory_reservations.length = 2 := by
  decide

/-- C9 amended: ApproveSchedule creates exactly one reservation per
requirement record of each READY day of the week on EVERY invocation; it is
not idempotent — a second invocation with no intervening state change
creates the same number of reservation rows again, doubling them. -/
theorem C9_amended_approve_not_idempotent (w : Int) (s : State)
    (hnodup : (s.production_schedule_days.map fun d => d.id).Nodup) :
    (approve_schedule w s).1.reservations_created =
      ((s.production_schedule_days.filter fun d =>
          d.week_start == w && d.status == "READY").map fun d =>
        (s.production_day_requirements.filter fun q =>
          q.schedule_day_id == d.id).length).sum ∧
    (approve_schedule w s).2.refs.inventory_reservations.length =
      s.refs.inventory_reservations.length +
        (approve_schedule w s).1.reservations_created ∧
    (approve_schedule w (approve_schedule w s).2).1.reservations_created =
      (approve_schedule w s).1.reservations_created ∧
    (approve_schedule w
        (approve_schedule w s).2).2.refs.inventory_reservations.length =
      s.refs.inventory_reservations.length +
        2 * (approve_schedule w s).1.reservations_created := by
  obtain ⟨hdays1, hreqs1, hcnt1, hlen1⟩ := approve_schedule_spec w s hnodup
  have hnodup2 : ((approve_schedule w s).2.production_schedule_days.map
      fun d => d.id).Nodup := by
    rw [hdays1]
    exact hnodup
  obtain ⟨hdays2, hreqs2, hcnt2, hlen2⟩ :=
    approve_schedule_spec w (approve_schedule w s).2 hnodup2
  have hcnt_eq : (approve_schedule w (approve_schedule w s).2).1.reservations_created =
      (approve_schedule w s).1.reservations_created := by
    rw [hcnt2, hdays1, hreqs1, hcnt1]
  refine ⟨hcnt1, hlen1, hcnt_eq, ?_⟩
  rw [hlen2, hcnt_eq, hlen1]
  omega

/-- Witness for C9 amended at `c9_state`: one requirement behind one READY
day yields one reservation per call and two after the second call. -/
theorem C9_witness :
    (approve_schedule 0 c9_state).1.reservations_created =
      ((c9_state.production_schedule_days.filter fun d =>
          d.week_start == 0 && d.status == "READY").map fun d =>
        (c9_state.production_day_requirements.filter fun q =>
          q.schedule_day_id == d.id).length).sum ∧
    (approve_schedule 0 c9_state).2.refs.inventory_reservations.length =
      c9_state.refs.inventory_reservations.length +
        (approve_schedule 0 c9_state).1.reservations_created ∧
    (approve_schedule 0 (approve_schedule 0 c9_state).2).1.reservations_created =
      (approve_schedule 0 c9_state).1.reservations_created ∧
    (approve_schedule 0
        (approve_schedule 0 c9_state).2).2.refs.inventory_reservations.length =
      c9_state.refs.inventory_reservations.length +
        2 * (approve_schedule 0 c9_state).1.reservations_created :=
  C9_amended_approve_not_idempotent 0 c9_state (by decide)

end ERP
